import Mathlib

/-!
# HumanMark — shallow embedding and verification

A shallow embedding in Lean 4 of the core detection engine of the
HumanMark repository (Go), together with theorems settling the frozen
claims about it.

Modelling conventions:
* Go `[]byte` is `List Nat` (each entry a byte value 0..255); Go `string`
  is Lean `String`, and byte/string conversions use the ASCII code of each
  character (the analysed fixtures are ASCII, where Go's UTF-8 agrees).
* Go `float64` arithmetic is modelled exactly over `ℚ`.  The two
  irrational library calls `math.Sqrt` and `math.Log2` are modelled by the
  deterministic rational surrogates `ratSqrt` (scaled integer square root)
  and `ratLog2` (integer floor logarithm); every claim settled below is
  robust to the rounding of these surrogates.
* Go slice expressions are modelled by `slice?`, which returns `none`
  exactly when the Go expression would panic (out of bounds); byte-walk
  loops carry explicit fuel, with the fuel bounds discharged in theorems.
* Go `map` iteration order is randomized at every `range` statement.  Where
  a range over a map selects a first match — the two encoder-table lookups
  `extractEncoder` and `extractAudioEncoder` — the observed order is an
  explicit argument, carried per run by the environment (`NetEnv`), so the
  nondeterminism is part of the model.  Map ranges whose result is
  order-independent in exact arithmetic (counting loops, key lookups) are
  embedded directly.
-/

set_option maxRecDepth 4000

/-- Go `math.Min` over the modelled rationals. -/
def minQ (a b : ℚ) : ℚ := if a ≤ b then a else b

/-- Go `math.Max` over the modelled rationals. -/
def maxQ (a b : ℚ) : ℚ := if a ≤ b then b else a

/-- Clamp a rational to [0,1]: Go `math.Max(0, math.Min(1, x))`. -/
def clamp01 (x : ℚ) : ℚ := maxQ 0 (minQ 1 x)

/-- Go helper `abs` from text_detector.go: absolute value by sign test. -/
def absQ (x : ℚ) : ℚ := if x < 0 then -x else x

/-- Scale factor for the rational square-root surrogate. -/
def sqrtScale : Nat := 1000000

/-- Newton iteration for the integer square root, with explicit fuel
(structural recursion, kernel-evaluable): while the update decreases,
continue; the fixed point from a start above the root is the floor root. -/
def isqrtAux (n : Nat) : Nat → Nat → Nat
  | 0, x => x
  | fuel + 1, x =>
    let next := (x + n / x) / 2
    if next < x then isqrtAux n fuel next else x

/-- Integer square root (floor), by Newton iteration from `n / 2 + 1`,
which is at least the root for `n ≥ 2`; each continuing step decreases
the iterate, so fuel `n` always suffices. -/
def isqrt (n : Nat) : Nat := if n ≤ 1 then n else isqrtAux n n (n / 2 + 1)

/-- Rational surrogate for `math.Sqrt`: scaled integer square root,
accurate to within `1/sqrtScale` of the real square root on the
nonnegative rationals. -/
def ratSqrt (q : ℚ) : ℚ :=
  if q ≤ 0 then 0
  else (isqrt (q.num.toNat * q.den * (sqrtScale * sqrtScale)) : ℚ) / ((q.den : ℚ) * (sqrtScale : ℚ))

/-- Rational surrogate for `math.Log2`: integer floor logarithm base 2. -/
def ratLog2 (q : ℚ) : ℚ := (Int.log 2 q : ℚ)

/-- ASCII bytes of a string (Go `[]byte(s)` for ASCII content). -/
def strBytes (s : String) : List Nat := s.toList.map Char.toNat

/-- String from bytes (Go `string(data)` for ASCII content). -/
def bytesToString (data : List Nat) : String := String.mk (data.map Char.ofNat)

/-- ASCII lower-casing of one byte (Go `bytes.ToLower`, ASCII range). -/
def byteLower (b : Nat) : Nat := if 65 ≤ b ∧ b ≤ 90 then b + 32 else b

/-- `true` iff `pat` occurs as a contiguous sublist of `l`
(Go `bytes.Contains` / `strings.Contains`). -/
def listContains (l pat : List Nat) : Bool :=
  (List.range (l.length + 1)).any (fun i => (l.drop i).take pat.length == pat)

/-- Substring test on strings via ASCII bytes (Go `strings.Contains`). -/
def strContains (s pat : String) : Bool := listContains (strBytes s) (strBytes pat)

/-- Number of non-overlapping occurrences of a nonempty pattern
(Go `strings.Count`): scan left to right, skipping a matched pattern. -/
def countOccsAux : Nat → List Nat → List Nat → Nat
  | 0, _, _ => 0
  | _ + 1, _, [] => 0
  | fuel + 1, pat, l@(_ :: rest) =>
    if l.take pat.length == pat then 1 + countOccsAux fuel pat (l.drop pat.length)
    else countOccsAux fuel pat rest

/-- Go `strings.Count` for a nonempty pattern, over ASCII bytes. -/
def countOccs (s pat : String) : Nat :=
  countOccsAux (strBytes s).length (strBytes pat) (strBytes s)

/-- Checked Go slice `data[a:b]`: `none` exactly when Go would panic. -/
def slice? (data : List Nat) (a b : Nat) : Option (List Nat) :=
  if a ≤ b ∧ b ≤ data.length then some ((data.drop a).take (b - a)) else none

/-- Checked byte access `data[i]`. -/
def byteAt (data : List Nat) (i : Nat) : Option Nat := data.get? i

/-- Unchecked byte access with a zero default; only used under explicit
length guards that mirror the Go bounds checks. -/
def byteD (data : List Nat) (i : Nat) : Nat := data.getD i 0

/-- Big-endian 32-bit word from four bytes (Go `binary.BigEndian.Uint32`). -/
def u32be (bs : List Nat) : Nat :=
  match bs with
  | [a, b, c, d] => ((a * 256 + b) * 256 + c) * 256 + d
  | _ => 0

/-- Big-endian 16-bit word from two bytes (Go `binary.BigEndian.Uint16`). -/
def u16be (bs : List Nat) : Nat :=
  match bs with
  | [a, b] => a * 256 + b
  | _ => 0

/-- Little-endian 16-bit word (Go `binary.LittleEndian.Uint16`). -/
def u16le (bs : List Nat) : Nat :=
  match bs with
  | [a, b] => b * 256 + a
  | _ => 0

/-- Little-endian 32-bit word (Go `binary.LittleEndian.Uint32`). -/
def u32le (bs : List Nat) : Nat :=
  match bs with
  | [a, b, c, d] => ((d * 256 + c) * 256 + b) * 256 + a
  | _ => 0

/-- Checked big-endian `Uint32` read at offset `i` (`data[i:i+4]`). -/
def readU32BE (data : List Nat) (i : Nat) : Option Nat :=
  (slice? data i (i + 4)).map u32be

/-! ## SHA-256 (crypto/sha256), over byte lists, with 32-bit words as
`Nat` reduced modulo `2^32`. -/

/-- 2^32, the word modulus of SHA-256. -/
def w32 : Nat := 4294967296

/-- Right rotation of a 32-bit word. -/
def rotr32 (x n : Nat) : Nat := (x / 2 ^ n + x % 2 ^ n * 2 ^ (32 - n)) % w32

/-- SHA-256 round constants. -/
def sha256K : List Nat :=
  [1116352408, 1899447441, 3049323471, 3921009573, 961987163, 1508970993, 2453635748,
  2870763221, 3624381080, 310598401, 607225278, 1426881987, 1925078388, 2162078206, 2614888103,
  3248222580, 3835390401, 4022224774, 264347078, 604807628, 770255983, 1249150122, 1555081692,
  1996064986, 2554220882, 2821834349, 2952996808, 3210313671, 3336571891, 3584528711, 113926993,
  338241895, 666307205, 773529912, 1294757372, 1396182291, 1695183700, 1986661051, 2177026350,
  2456956037, 2730485921, 2820302411, 3259730800, 3345764771, 3516065817, 3600352804,
  4094571909, 275423344, 430227734, 506948616, 659060556, 883997877, 958139571, 1322822218,
  1537002063, 1747873779, 1955562222, 2024104815, 2227730452, 2361852424, 2428436474,
  2756734187, 3204031479, 3329325298]

/-- SHA-256 initial hash state. -/
def sha256H0 : List Nat :=
  [1779033703, 3144134277, 1013904242, 2773480762, 1359893119, 2600822924, 528734635, 1541459225]

/-- Message padding: append `0x80`, zeros, and the 64-bit big-endian bit
length, reaching a multiple of 64 bytes. -/
def sha256Pad (msg : List Nat) : List Nat :=
  let len := msg.length
  let zeros := (64 - (len + 9) % 64) % 64
  let bitLen := len * 8
  msg ++ [0x80] ++ List.replicate zeros 0 ++
    ((List.range 8).map (fun i => bitLen / 2 ^ (8 * (7 - i)) % 256))

/-- Message-schedule extension from the 16 block words to 64 words. -/
def sha256Schedule : Nat → List Nat → List Nat
  | 0, ws => ws
  | n + 1, ws =>
    let i := ws.length
    let x15 := ws.getD (i - 15) 0
    let x2 := ws.getD (i - 2) 0
    let s0 := (Nat.xor (Nat.xor (rotr32 x15 7) (rotr32 x15 18)) (x15 / 2 ^ 3)) % w32
    let s1 := (Nat.xor (Nat.xor (rotr32 x2 17) (rotr32 x2 19)) (x2 / 2 ^ 10)) % w32
    sha256Schedule n (ws ++ [(ws.getD (i - 16) 0 + s0 + ws.getD (i - 7) 0 + s1) % w32])

/-- One round of the SHA-256 compression function. -/
def sha256Round (st : List Nat) (kw : Nat × Nat) : List Nat :=
  match st with
  | [a, b, c, d, e, f, g, h] =>
    let s1 := (Nat.xor (Nat.xor (rotr32 e 6) (rotr32 e 11)) (rotr32 e 25)) % w32
    let ch := (Nat.xor (Nat.land e f) (Nat.land (Nat.xor e (w32 - 1)) g)) % w32
    let t1 := (h + s1 + ch + kw.1 + kw.2) % w32
    let s0 := (Nat.xor (Nat.xor (rotr32 a 2) (rotr32 a 13)) (rotr32 a 22)) % w32
    let mj := (Nat.xor (Nat.xor (Nat.land a b) (Nat.land a c)) (Nat.land b c)) % w32
    let t2 := (s0 + mj) % w32
    [(t1 + t2) % w32, a, b, c, (d + t1) % w32, e, f, g]
  | st => st

/-- Compress one 64-byte block into the running state. -/
def sha256Block (h : List Nat) (block : List Nat) : List Nat :=
  let ws0 := (List.range 16).map (fun i => u32be ((block.drop (4 * i)).take 4))
  let ws := sha256Schedule 48 ws0
  let st := (sha256K.zip ws).foldl sha256Round h
  (h.zip st).map (fun p => (p.1 + p.2) % w32)

/-- Process padded input in 64-byte blocks. -/
def sha256Blocks : Nat → List Nat → List Nat → List Nat
  | 0, h, _ => h
  | _ + 1, h, [] => h
  | n + 1, h, bs => sha256Blocks n (sha256Block h (bs.take 64)) (bs.drop 64)

/-- Hex digit character. -/
def hexDigit (n : Nat) : Char := if n < 10 then Char.ofNat (48 + n) else Char.ofNat (87 + n)

/-- Lower-case hex encoding of a 32-bit word as 8 characters. -/
def hexWord (x : Nat) : List Char :=
  (List.range 8).map (fun i => hexDigit (x / 16 ^ (7 - i) % 16))

/-- Hex-encoded SHA-256 digest of a byte list
(Go `hex.EncodeToString(sha256.Sum(...))`). -/
def sha256Hex (msg : List Nat) : String :=
  let padded := sha256Pad msg
  let h := sha256Blocks (padded.length / 64 + 1) sha256H0 padded
  String.mk (h.foldr (fun x acc => hexWord x ++ acc) [])

/-! ## Text analyzer (internal/service/text_analyzer.go)

Text is handled as the list of character codes of the input string
(identical to Go's bytes/runes on the ASCII fixtures analysed here,
plus the em dash U+2014 appearing in the source's punctuation list). -/

/-- Character codes counted as word characters by the tokenizer regexp
`[a-zA-Z']+`. -/
def isWordCode (b : Nat) : Bool :=
  (97 ≤ b && b ≤ 122) || (65 ≤ b && b ≤ 90) || b == 39

/-- Sentence-ending codes, the class `[.!?]`. -/
def isSentEnd (b : Nat) : Bool := b == 46 || b == 33 || b == 63

/-- Whitespace codes, the regexp class `\s`. -/
def isSpaceCode (b : Nat) : Bool := b == 32 || b == 9 || b == 10 || b == 12 || b == 13

/-- Character codes in the Unicode punctuation category `P` restricted to
ASCII, plus the em dash; Go `unicode.IsPunct` on the modelled inputs. -/
def isPunctCode (b : Nat) : Bool :=
  b == 33 || b == 34 || b == 35 || b == 37 || b == 38 || b == 39 || b == 40 ||
  b == 41 || b == 42 || b == 44 || b == 45 || b == 46 || b == 47 || b == 58 ||
  b == 59 || b == 63 || b == 64 || b == 91 || b == 92 || b == 93 || b == 95 ||
  b == 123 || b == 125 || b == 8212

/-- ASCII lower-casing of a character code (Go `strings.ToLower`). -/
def codeLower (b : Nat) : Nat := byteLower b

/-- Lower-case a whole word. -/
def wordLower (w : List Nat) : List Nat := w.map codeLower

/-- Tokenizer: maximal runs of `[a-zA-Z']` characters
(`tokenize` in text_analyzer.go, regexp `[a-zA-Z']+`). -/
def tokenizeAux : List Nat → List Nat → List (List Nat)
  | [], cur => if cur.isEmpty then [] else [cur.reverse]
  | b :: rest, cur =>
    if isWordCode b then tokenizeAux rest (b :: cur)
    else if cur.isEmpty then tokenizeAux rest [] else cur.reverse :: tokenizeAux rest []

/-- `tokenize` from text_analyzer.go. -/
def tokenize (codes : List Nat) : List (List Nat) := tokenizeAux codes []

/-- Trim leading and trailing whitespace (Go `strings.TrimSpace`). -/
def trimSpace (l : List Nat) : List Nat :=
  ((l.dropWhile isSpaceCode).reverse.dropWhile isSpaceCode).reverse

/-- Scanner for the sentence-splitting regexp `[.!?]+\s+`: a split point is
a maximal run of `[.!?]` followed by at least one whitespace character. -/
def splitSentencesAux : Nat → List Nat → List Nat → List (List Nat)
  | 0, cur, rest => [cur.reverse ++ rest]
  | _ + 1, cur, [] => [cur.reverse]
  | fuel + 1, cur, b :: rest =>
    if isSentEnd b then
      let run := rest.takeWhile isSentEnd
      let rest' := rest.dropWhile isSentEnd
      match rest' with
      | c :: _ =>
        if isSpaceCode c then
          cur.reverse :: splitSentencesAux fuel [] (rest'.dropWhile isSpaceCode)
        else splitSentencesAux fuel (run.reverse ++ b :: cur) rest'
      | [] => splitSentencesAux fuel (run.reverse ++ b :: cur) []
    else splitSentencesAux fuel (b :: cur) rest

/-- `splitSentences` from text_analyzer.go: split on `[.!?]+\s+`, trim each
part, and drop empty parts. -/
def splitSentences (codes : List Nat) : List (List Nat) :=
  ((splitSentencesAux (codes.length + 1) [] codes).map trimSpace).filter
    (fun p => !p.isEmpty)

/-- The fixed common-word vocabulary of `isCommonWord`. -/
def commonWords : List String :=
  ["a", "an", "the",
   "i", "you", "he", "she", "it", "we", "they", "me", "him", "her",
   "us", "them", "my", "your", "his", "its", "our", "their", "this", "that",
   "in", "on", "at", "to", "for", "of", "with", "by", "from", "about",
   "into", "through", "during", "before", "after",
   "and", "or", "but", "so", "yet", "if", "when", "while", "because", "although",
   "is", "are", "was", "were", "be", "been", "being", "have", "has", "had",
   "do", "does", "did", "will", "would", "could", "should", "may", "might", "must",
   "can", "get", "got", "make", "made",
   "not", "no", "yes", "just", "only", "also", "very", "more", "most", "some",
   "any", "all", "many", "much", "other", "such", "than", "then", "now", "here",
   "there", "where", "what", "which", "who", "how", "why", "each", "every", "both",
   "few", "new", "old", "good", "bad", "first", "last", "long", "little", "own",
   "same", "big", "high", "small", "large", "next", "early", "young", "important",
   "public", "able", "man", "woman", "time", "year", "people", "way", "day",
   "thing", "world", "life", "hand", "part", "place", "case", "week", "work",
   "fact", "group", "number", "night", "point", "home", "water", "room",
   "mother", "area", "money", "story", "month", "lot", "right", "study", "book",
   "eye", "job", "word", "business", "issue", "side", "kind", "head", "house",
   "service", "friend", "father", "power", "hour", "game", "line", "end",
   "member", "law", "car", "city", "community", "name"]

/-- `isCommonWord` from text_analyzer.go (membership after lower-casing). -/
def isCommonWord (w : List Nat) : Bool :=
  commonWords.any (fun c => strBytes c == wordLower w)

/-- Sum of a list of rationals. -/
def qsum (l : List ℚ) : ℚ := l.foldl (· + ·) 0

/-- Population variance helper: mean of squared deviations from `mean`. -/
def qvarAbout (l : List ℚ) (mean : ℚ) : ℚ :=
  qsum (l.map (fun x => (x - mean) * (x - mean))) / (l.length : ℚ)

/-- `TextAnalyzerWeights` from text_analyzer.go. -/
structure TextAnalyzerWeights where
  SentenceVariance : ℚ
  VocabularyRichness : ℚ
  Burstiness : ℚ
  PunctuationVariety : ℚ
  AIPhraseDetection : ℚ
  WordLengthVariance : ℚ
  ContractionsUsage : ℚ
  RepetitionPenalty : ℚ
deriving DecidableEq

/-- `DefaultWeights` from text_analyzer.go. -/
def DefaultWeights : TextAnalyzerWeights where
  SentenceVariance := 0.15
  VocabularyRichness := 0.20
  Burstiness := 0.10
  PunctuationVariety := 0.10
  AIPhraseDetection := 0.20
  WordLengthVariance := 0.05
  ContractionsUsage := 0.10
  RepetitionPenalty := 0.10

/-- `TextSignals` from text_analyzer.go. -/
structure TextSignals where
  SentenceVariance : ℚ := 0
  VocabularyRichness : ℚ := 0
  Burstiness : ℚ := 0
  PunctuationVariety : ℚ := 0
  AIPhraseScore : ℚ := 0
  WordLengthVariance : ℚ := 0
  ContractionsUsage : ℚ := 0
  RepetitionScore : ℚ := 0
deriving DecidableEq

/-- `TextStats` from text_analyzer.go. -/
structure TextStats where
  CharCount : Nat := 0
  WordCount : Nat := 0
  SentenceCount : Nat := 0
  AvgSentenceLen : ℚ := 0
  AvgWordLen : ℚ := 0
  UniqueWords : Nat := 0
  UniqueRatio : ℚ := 0
  PunctuationCount : Nat := 0
deriving DecidableEq

/-- `TextAnalysisResult` from text_analyzer.go. -/
structure TextAnalysisResult where
  AIScore : ℚ := 0
  Signals : TextSignals := {}
  DetectedAIPhrases : List String := []
  Stats : TextStats := {}
deriving DecidableEq

/-- `TextAnalyzer` struct (weights field). -/
structure TextAnalyzer where
  weights : TextAnalyzerWeights

/-- `NewTextAnalyzer` from text_analyzer.go. -/
def NewTextAnalyzer : TextAnalyzer := ⟨DefaultWeights⟩

/-- `calculateStats` from text_analyzer.go. -/
def TextAnalyzer.calculateStats (_ : TextAnalyzer) (codes : List Nat) : TextStats :=
  let words := tokenize codes
  let sentences := splitSentences codes
  let avgSentenceLen : ℚ :=
    if sentences.length > 0 then
      ((qsum (sentences.map (fun s => ((tokenize s).length : ℚ)))) / (sentences.length : ℚ))
    else 0
  let avgWordLen : ℚ :=
    if words.length > 0 then
      (qsum (words.map (fun w => (w.length : ℚ)))) / (words.length : ℚ)
    else 0
  let uniq := (words.map wordLower).dedup
  { CharCount := codes.length
    WordCount := words.length
    SentenceCount := sentences.length
    AvgSentenceLen := avgSentenceLen
    AvgWordLen := avgWordLen
    UniqueWords := uniq.length
    UniqueRatio := if words.length > 0 then (uniq.length : ℚ) / (words.length : ℚ) else 0
    PunctuationCount := (codes.filter isPunctCode).length }

/-- `analyzeSentenceVariance` from text_analyzer.go. -/
def TextAnalyzer.analyzeSentenceVariance (_ : TextAnalyzer) (codes : List Nat) : ℚ :=
  let sentences := splitSentences codes
  if sentences.length < 3 then 0.5
  else
    let lengths : List ℚ := sentences.map (fun s => ((tokenize s).length : ℚ))
    let mean := qsum lengths / (lengths.length : ℚ)
    let variance := qvarAbout lengths mean
    let stdDev := ratSqrt variance
    let cv := if mean > 0 then stdDev / mean else 0
    1 - minQ (cv / 0.8) 1

/-- `analyzeVocabularyRichness` from text_analyzer.go. -/
def TextAnalyzer.analyzeVocabularyRichness (_ : TextAnalyzer) (codes : List Nat) : ℚ :=
  let words := tokenize codes
  if words.length < 10 then 0.5
  else
    let uniq := (words.map wordLower).dedup
    let ttr : ℚ := (uniq.length : ℚ) / (words.length : ℚ)
    let uncommonCount := (uniq.filter (fun w => !isCommonWord w && w.length > 3)).length
    let uncommonRatio : ℚ := (uncommonCount : ℚ) / (uniq.length : ℚ)
    let ttrScore := 1 - minQ (ttr / 0.6) 1
    clamp01 (ttrScore * 0.6 + (1 - uncommonRatio) * 0.4)

/-- Positions (word indices) of each repeated content word, in first
occurrence order: the `wordPositions` map of `analyzeBurstiness`. -/
def burstWordPositions (words : List (List Nat)) : List (List Nat × List Nat) :=
  let lowered := words.map wordLower
  let content := lowered.filter (fun w => w.length > 4 && !isCommonWord w)
  content.dedup.map (fun w =>
    (w, ((lowered.enum).filter (fun p => p.2 == w)).map (fun p => p.1)))

/-- `analyzeBurstiness` from text_analyzer.go. -/
def TextAnalyzer.analyzeBurstiness (_ : TextAnalyzer) (codes : List Nat) : ℚ :=
  let words := tokenize codes
  if words.length < 20 then 0.5
  else
    let entries := (burstWordPositions words).filter (fun p => p.2.length ≥ 2)
    let perWord : List ℚ := entries.map (fun p =>
      let gaps : List ℚ := (p.2.zip p.2.tail).map (fun g => ((g.2 : ℚ) - (g.1 : ℚ)))
      let mean := qsum gaps / (gaps.length : ℚ)
      let variance := qvarAbout gaps mean
      if mean > 0 then ratSqrt variance / mean else 0)
    let count := entries.length
    if count = 0 then 0.5
    else
      let avgBurstiness := qsum perWord / (count : ℚ)
      1 - minQ (avgBurstiness / 1.5) 1

/-- The `interestingPunct` rune list of `analyzePunctuationVariety`. -/
def interestingPunct : List Nat := [33, 63, 59, 58, 45, 8212, 40, 41, 34, 39]

/-- `analyzePunctuationVariety` from text_analyzer.go. -/
def TextAnalyzer.analyzePunctuationVariety (_ : TextAnalyzer) (codes : List Nat) : ℚ :=
  let puncts := codes.filter isPunctCode
  let totalPunct := puncts.length
  if totalPunct < 5 then 0.5
  else
    let uniquePunct := puncts.dedup.length
    let variedPunct := (interestingPunct.filter (fun p => puncts.contains p)).length
    let varietyScore : ℚ := (uniquePunct : ℚ) / 8
    let interestingScore : ℚ := (variedPunct : ℚ) / 5
    clamp01 (1 - (varietyScore * 0.5 + interestingScore * 0.5))

/-- The weighted AI-phrase table of `detectAIPhrases`. -/
def aiPhrases : List (String × ℚ) :=
  [("as an ai", 1.0), ("as a language model", 1.0), ("i don't have personal", 0.9),
   ("i cannot provide", 0.8), ("i'm unable to", 0.7),
   ("it's important to note", 0.8), ("it is important to", 0.7), ("it's worth noting", 0.7),
   ("it should be noted", 0.7), ("keep in mind that", 0.6),
   ("furthermore", 0.4), ("moreover", 0.4), ("additionally", 0.4), ("in conclusion", 0.5),
   ("to summarize", 0.5), ("in summary", 0.5), ("overall", 0.3),
   ("i hope this helps", 0.7), ("feel free to", 0.5), ("don't hesitate to", 0.5),
   ("let me know if", 0.4),
   ("utilize", 0.3), ("facilitate", 0.3), ("leverage", 0.3), ("delve into", 0.6),
   ("dive into", 0.4), ("explore the", 0.3),
   ("here are some", 0.5), ("here's a list", 0.5), ("the following", 0.4)]

/-- `detectAIPhrases` from text_analyzer.go: returns the score and the
list of matched phrases. -/
def TextAnalyzer.detectAIPhrases (_ : TextAnalyzer) (codes : List Nat) : ℚ × List String :=
  let lower := codes.map codeLower
  let matched := aiPhrases.filter (fun p => listContains lower (strBytes p.1))
  let detected := matched.map (fun p => p.1)
  let totalWeight := qsum (matched.map (fun p => p.2))
  let matchCount := matched.length
  if matchCount = 0 then (0, detected)
  else
    let wordCount := (tokenize codes).length
    let normalizedScore := totalWeight / ((wordCount : ℚ) / 100)
    (minQ normalizedScore 1, detected)

/-- `analyzeWordLengthVariance` from text_analyzer.go. -/
def TextAnalyzer.analyzeWordLengthVariance (_ : TextAnalyzer) (codes : List Nat) : ℚ :=
  let words := tokenize codes
  if words.length < 10 then 0.5
  else
    let lengths : List ℚ := words.map (fun w => (w.length : ℚ))
    let mean := qsum lengths / (words.length : ℚ)
    let variance := qvarAbout lengths mean
    let stdDev := ratSqrt variance
    let cv := if mean > 0 then stdDev / mean else 0
    1 - minQ (cv / 0.6) 1

/-- The contraction list of `analyzeContractions`. -/
def contractionsList : List String :=
  ["i'm", "i'll", "i've", "i'd",
   "you're", "you'll", "you've", "you'd",
   "he's", "she's", "it's", "we're", "they're",
   "don't", "doesn't", "didn't", "won't", "wouldn't",
   "can't", "couldn't", "shouldn't", "isn't", "aren't",
   "wasn't", "weren't", "haven't", "hasn't", "hadn't",
   "let's", "that's", "there's", "here's", "what's",
   "who's", "how's", "where's", "when's"]

/-- `analyzeContractions` from text_analyzer.go. -/
def TextAnalyzer.analyzeContractions (_ : TextAnalyzer) (codes : List Nat) : ℚ :=
  let lower := codes.map codeLower
  let wordCount := (tokenize codes).length
  if wordCount < 20 then 0.5
  else
    let contractionCount :=
      (contractionsList.map (fun c => countOccsAux lower.length (strBytes c) lower)).sum
    let contractionRate : ℚ := (contractionCount : ℚ) / ((wordCount : ℚ) / 100)
    1 - minQ (contractionRate / 3) 1

/-- `analyzeRepetition` from text_analyzer.go.  The sum over the `starts`
map of `count - 1` for every key with `count > 1` equals the number of
start entries minus the number of distinct start keys. -/
def TextAnalyzer.analyzeRepetition (_ : TextAnalyzer) (codes : List Nat) : ℚ :=
  let sentences := splitSentences codes
  if sentences.length < 3 then 0.5
  else
    let starts := (sentences.filterMap (fun s =>
      match tokenize s with
      | w0 :: w1 :: _ => some (wordLower w0 ++ [32] ++ wordLower w1)
      | _ => none))
    let repetitions := starts.length - starts.dedup.length
    let repRate : ℚ := (repetitions : ℚ) / (sentences.length : ℚ)
    minQ (repRate * 2) 1

/-- `calculateWeightedScore` from text_analyzer.go. -/
def TextAnalyzer.calculateWeightedScore (a : TextAnalyzer) (signals : TextSignals) : ℚ :=
  let w := a.weights
  let score :=
    signals.SentenceVariance * w.SentenceVariance +
    signals.VocabularyRichness * w.VocabularyRichness +
    signals.Burstiness * w.Burstiness +
    signals.PunctuationVariety * w.PunctuationVariety +
    signals.AIPhraseScore * w.AIPhraseDetection +
    signals.WordLengthVariance * w.WordLengthVariance +
    signals.ContractionsUsage * w.ContractionsUsage +
    signals.RepetitionScore * w.RepetitionPenalty
  let totalWeight :=
    w.SentenceVariance + w.VocabularyRichness + w.Burstiness +
    w.PunctuationVariety + w.AIPhraseDetection + w.WordLengthVariance +
    w.ContractionsUsage + w.RepetitionPenalty
  let score := if totalWeight > 0 then score / totalWeight else score
  clamp01 score

/-- `Analyze` from text_analyzer.go (text passed as character codes). -/
def TextAnalyzer.analyze (a : TextAnalyzer) (text : String) : TextAnalysisResult :=
  let codes := strBytes text
  let phr := a.detectAIPhrases codes
  let signals : TextSignals :=
    { SentenceVariance := a.analyzeSentenceVariance codes
      VocabularyRichness := a.analyzeVocabularyRichness codes
      Burstiness := a.analyzeBurstiness codes
      PunctuationVariety := a.analyzePunctuationVariety codes
      AIPhraseScore := phr.1
      WordLengthVariance := a.analyzeWordLengthVariance codes
      ContractionsUsage := a.analyzeContractions codes
      RepetitionScore := a.analyzeRepetition codes }
  { AIScore := a.calculateWeightedScore signals
    Signals := signals
    DetectedAIPhrases := phr.2
    Stats := a.calculateStats codes }

/-! ## Image analyzer (internal/service/image_analyzer.go) -/

/-- Unchecked Go slice `data[a:b]`, used only under the source's own
length guards. -/
def sliceD (data : List Nat) (a b : Nat) : List Nat := (data.drop a).take (b - a)

/-- `byteSimilarity` from image_analyzer.go: fraction of equal bytes at
equal offsets (0 on length mismatch). -/
def byteSimilarity (a b : List Nat) : ℚ :=
  if a.length ≠ b.length then 0
  else (((a.zip b).filter (fun p => p.1 == p.2)).length : ℚ) / (a.length : ℚ)

/-- All unordered pairs of list elements, in index order. -/
def listPairs {α : Type} : List α → List (α × α)
  | [] => []
  | x :: xs => (xs.map (fun y => (x, y))) ++ listPairs xs

/-- Byte-frequency Shannon entropy accumulated with `ratLog2`
(the inline entropy computation of `analyzeColorDistribution`). -/
def byteEntropy (sample : List Nat) : ℚ :=
  let total : ℚ := (sample.length : ℚ)
  let freqs := (List.range 256).map (fun v => ((sample.filter (fun b => b == v)).length : ℚ))
  let contribs := freqs.map (fun f => if f > 0 then (f / total) * ratLog2 (f / total) else 0)
  0 - qsum contribs

/-- `ImageAnalyzerWeights` from image_analyzer.go. -/
structure ImageAnalyzerWeights where
  MetadataScore : ℚ
  ColorDistribution : ℚ
  EdgeConsistency : ℚ
  NoisePattern : ℚ
  CompressionAnalysis : ℚ
  SymmetryDetection : ℚ
deriving DecidableEq

/-- `DefaultImageWeights` from image_analyzer.go. -/
def DefaultImageWeights : ImageAnalyzerWeights where
  MetadataScore := 0.25
  ColorDistribution := 0.20
  EdgeConsistency := 0.15
  NoisePattern := 0.15
  CompressionAnalysis := 0.15
  SymmetryDetection := 0.10

/-- `ImageSignals` from image_analyzer.go. -/
structure ImageSignals where
  MetadataScore : ℚ := 0
  ColorDistribution : ℚ := 0
  EdgeConsistency : ℚ := 0
  NoisePattern : ℚ := 0
  CompressionAnalysis : ℚ := 0
  SymmetryScore : ℚ := 0
deriving DecidableEq

/-- `ImageMetadata` from image_analyzer.go. -/
structure ImageMetadata where
  HasEXIF : Bool := false
  CameraMake : String := ""
  CameraModel : String := ""
  Software : String := ""
  DateTaken : String := ""
  HasGPS : Bool := false
  IsScreenshot : Bool := false
  FileFormat : String := ""
deriving DecidableEq

/-- `ImageStats` from image_analyzer.go. -/
structure ImageStats where
  Width : Nat := 0
  Height : Nat := 0
  BitDepth : Nat := 0
  ColorChannels : Nat := 0
  EstimatedColors : Nat := 0
  AvgBrightness : ℚ := 0
  Contrast : ℚ := 0
deriving DecidableEq

/-- `ImageAnalysisResult` from image_analyzer.go. -/
structure ImageAnalysisResult where
  AIScore : ℚ := 0
  Signals : ImageSignals := {}
  Metadata : ImageMetadata := {}
  Stats : ImageStats := {}
deriving DecidableEq

/-- `ImageAnalyzer` struct (weights field). -/
structure ImageAnalyzer where
  weights : ImageAnalyzerWeights

/-- `NewImageAnalyzer` from image_analyzer.go. -/
def NewImageAnalyzer : ImageAnalyzer := ⟨DefaultImageWeights⟩

/-- `detectImageFormat` from image_analyzer.go, with every byte access
checked: the result is `none` exactly when Go would index out of bounds. -/
def detectImageFormat (data : List Nat) : Option String :=
  if data.length < 8 then some "unknown"
  else do
    let b0 ← byteAt data 0
    let b1 ← byteAt data 1
    let b2 ← byteAt data 2
    let b3 ← byteAt data 3
    if b0 == 0xFF && b1 == 0xD8 && b2 == 0xFF then pure "jpeg"
    else if b0 == 0x89 && b1 == 0x50 && b2 == 0x4E && b3 == 0x47 then pure "png"
    else if b0 == 0x47 && b1 == 0x49 && b2 == 0x46 && b3 == 0x38 then pure "gif"
    else do
      let webp ←
        if 12 ≤ data.length && b0 == 0x52 && b1 == 0x49 && b2 == 0x46 && b3 == 0x46 then do
          let b8 ← byteAt data 8
          let b9 ← byteAt data 9
          let b10 ← byteAt data 10
          let b11 ← byteAt data 11
          pure (b8 == 0x57 && b9 == 0x45 && b10 == 0x42 && b11 == 0x50)
        else pure false
      if webp then pure "webp"
      else if b0 == 0x42 && b1 == 0x4D then pure "bmp"
      else pure "unknown"

/-- `parseJPEGMetadata` from image_analyzer.go. -/
def ImageAnalyzer.parseJPEGMetadata (_ : ImageAnalyzer) (data : List Nat) : ImageMetadata :=
  let meta0 : ImageMetadata := { FileFormat := "jpeg" }
  if data.length < 12 then meta0
  else
    let meta :=
      match (List.range (data.length - 10)).find?
          (fun i => byteD data i == 0xFF && byteD data (i + 1) == 0xE1) with
      | none => meta0
      | some i =>
        if i + 10 < data.length then
          let segment := data.drop (i + 4)
          if segment.length ≥ 6 && segment.take 4 == strBytes "Exif" then
            let exif := segment
            let cameraMake :=
              if listContains exif (strBytes "Apple") then "Apple"
              else if listContains exif (strBytes "Canon") then "Canon"
              else if listContains exif (strBytes "Nikon") then "Nikon"
              else if listContains exif (strBytes "Sony") then "Sony"
              else if listContains exif (strBytes "Samsung") then "Samsung"
              else if listContains exif (strBytes "Google") then "Google"
              else ""
            let software :=
              if listContains exif (strBytes "Photoshop") then "Photoshop"
              else if listContains exif (strBytes "GIMP") then "GIMP"
              else if listContains exif (strBytes "Lightroom") then "Lightroom"
              else if listContains exif (strBytes "DALL-E") ||
                  listContains exif (strBytes "Midjourney") ||
                  listContains exif (strBytes "Stable Diffusion") then "AI Generator"
              else ""
            { meta0 with
              HasEXIF := true
              CameraMake := cameraMake
              Software := software
              HasGPS := listContains exif (strBytes "GPS") }
          else meta0
        else meta0
    if meta.Software == "" && !meta.HasEXIF then { meta with IsScreenshot := true } else meta

/-- The PNG `tEXt`/`iTXt` chunk walk of `parsePNGMetadata`; each step
advances by `12 + chunkLen ≥ 12`, so fuel `data.length + 1` never runs
out. -/
def pngChunkWalk (data : List Nat) : Nat → Nat → ImageMetadata → ImageMetadata
  | 0, _, meta => meta
  | fuel + 1, i, meta =>
    if i < data.length - 8 then
      if i + 8 > data.length then meta
      else
        let chunkLen := u32be (sliceD data i (i + 4))
        let chunkType := sliceD data (i + 4) (i + 8)
        let meta :=
          if chunkType == strBytes "tEXt" || chunkType == strBytes "iTXt" then
            { meta with HasEXIF := true }
          else meta
        let meta :=
          if chunkLen > 0 && i + 8 + chunkLen < data.length then
            let chunkData := sliceD data (i + 8) (i + 8 + chunkLen)
            if listContains chunkData (strBytes "DALL-E") ||
                listContains chunkData (strBytes "Midjourney") ||
                listContains chunkData (strBytes "Stable Diffusion") ||
                listContains chunkData (strBytes "ComfyUI") then
              { meta with Software := "AI Generator" }
            else meta
          else meta
        pngChunkWalk data fuel (i + (12 + chunkLen)) meta
    else meta

/-- `parsePNGMetadata` from image_analyzer.go. -/
def ImageAnalyzer.parsePNGMetadata (_ : ImageAnalyzer) (data : List Nat) : ImageMetadata :=
  pngChunkWalk data (data.length + 1) 8 { FileFormat := "png" }

/-- `extractMetadata` from image_analyzer.go. -/
def ImageAnalyzer.extractMetadata (a : ImageAnalyzer) (data : List Nat) (format : String) :
    ImageMetadata :=
  if format == "jpeg" then a.parseJPEGMetadata data
  else if format == "png" then a.parsePNGMetadata data
  else { FileFormat := format }

/-- `getJPEGStats` from image_analyzer.go. -/
def ImageAnalyzer.getJPEGStats (_ : ImageAnalyzer) (data : List Nat) : ImageStats :=
  match (List.range (data.length - 10)).find?
      (fun i => byteD data i == 0xFF &&
        (byteD data (i + 1) == 0xC0 || byteD data (i + 1) == 0xC2)) with
  | none => {}
  | some i =>
    if i + 9 < data.length then
      { BitDepth := byteD data (i + 4)
        Height := u16be (sliceD data (i + 5) (i + 7))
        Width := u16be (sliceD data (i + 7) (i + 9))
        ColorChannels := byteD data (i + 9) }
    else {}

/-- `getPNGStats` from image_analyzer.go. -/
def ImageAnalyzer.getPNGStats (_ : ImageAnalyzer) (data : List Nat) : ImageStats :=
  if data.length ≥ 24 then
    { Width := u32be (sliceD data 16 20)
      Height := u32be (sliceD data 20 24)
      BitDepth := if data.length ≥ 25 then byteD data 24 else 0 }
  else {}

/-- `getImageStats` from image_analyzer.go. -/
def ImageAnalyzer.getImageStats (a : ImageAnalyzer) (data : List Nat) (format : String) :
    ImageStats :=
  if format == "jpeg" then a.getJPEGStats data
  else if format == "png" then a.getPNGStats data
  else {}

/-- `analyzeMetadata` from image_analyzer.go. -/
def ImageAnalyzer.analyzeMetadata (_ : ImageAnalyzer) (meta : ImageMetadata) : ℚ :=
  let score : ℚ := 0.5
  let score := if meta.HasEXIF then score - 0.2 else score + 0.2
  let score := if meta.CameraMake ≠ "" then score - 0.2 else score
  let score := if meta.HasGPS then score - 0.2 else score
  let score := if meta.Software == "AI Generator" then score + 0.4 else score
  let score := if meta.IsScreenshot then score + 0.1 else score
  clamp01 score

/-- `analyzeColorDistribution` from image_analyzer.go. -/
def ImageAnalyzer.analyzeColorDistribution (_ : ImageAnalyzer) (data : List Nat)
    (format : String) : ℚ :=
  if data.length < 1000 then 0.5
  else
    let startOffset := if format == "png" then 50 else 100
    if data.length < startOffset + 1000 then 0.5
    else
      let sample := sliceD data startOffset (startOffset + 1000)
      let normalizedEntropy := byteEntropy sample / 8
      if normalizedEntropy < 0.6 || normalizedEntropy > 0.98 then 0.7 else 0.4

/-- The sample-collection loop of `analyzeEdgeConsistency`; the fuel is the
remaining sample allowance (`len(samples) < 10` in Go). -/
def edgeSampleLoop (data : List Nat) (step : Nat) : Nat → Nat → List (List Nat) →
    List (List Nat)
  | 0, _, acc => acc
  | fuel + 1, i, acc =>
    if i < data.length - 256 then
      edgeSampleLoop data step fuel (i + step) (acc ++ [sliceD data i (i + 256)])
    else acc

/-- `analyzeEdgeConsistency` from image_analyzer.go. -/
def ImageAnalyzer.analyzeEdgeConsistency (_ : ImageAnalyzer) (data : List Nat)
    (_ : String) : ℚ :=
  if data.length < 5000 then 0.5
  else
    let samples := edgeSampleLoop data (data.length / 12) 10 1000 []
    if samples.length < 3 then 0.5
    else
      let similarityCount :=
        ((listPairs samples).filter (fun p => byteSimilarity p.1 p.2 > 0.9)).length
      let simRatio : ℚ :=
        (similarityCount : ℚ) / ((samples.length * (samples.length - 1) / 2 : Nat) : ℚ)
      if simRatio > 0.3 then 0.7 else 0.4

/-- `analyzeNoisePattern` from image_analyzer.go. -/
def ImageAnalyzer.analyzeNoisePattern (_ : ImageAnalyzer) (data : List Nat)
    (_ : String) : ℚ :=
  if data.length < 2000 then 0.5
  else if data.length < 500 + 1000 then 0.5
  else
    let sample := sliceD data 500 1500
    let idxs := (List.range sample.length).filter
      (fun i => i % 16 == 0 && i < sample.length - 16)
    let variances : List ℚ := idxs.map (fun i =>
      let window := sliceD sample i (i + 16)
      let mean := qsum (window.map (fun b => (b : ℚ))) / (window.length : ℚ)
      qvarAbout (window.map (fun b => (b : ℚ))) mean)
    if variances.length = 0 then 0.5
    else
      let avgVariance := qsum variances / (variances.length : ℚ)
      let varianceOfVariance := qvarAbout variances avgVariance
      let noiseCV := ratSqrt varianceOfVariance / (avgVariance + 1)
      if avgVariance < 10 then 0.7
      else if noiseCV > 2 then 0.6
      else 0.4

/-- `analyzeCompression` from image_analyzer.go. -/
def ImageAnalyzer.analyzeCompression (_ : ImageAnalyzer) (data : List Nat)
    (format : String) : ℚ :=
  if format ≠ "jpeg" then 0.5
  else
    match (List.range (data.length - 100)).find?
        (fun i => byteD data i == 0xFF && byteD data (i + 1) == 0xDB) with
    | none => 0.5
    | some i =>
      if i + 69 < data.length then
        let s := (sliceD data (i + 5) (i + 69)).sum
        if s < 200 then 0.7
        else if s > 3000 then 0.6
        else 0.4
      else 0.5

/-- `analyzeSymmetry` from image_analyzer.go. -/
def ImageAnalyzer.analyzeSymmetry (_ : ImageAnalyzer) (data : List Nat)
    (_ : String) : ℚ :=
  if data.length < 2000 then 0.5
  else
    let mid := data.length / 2
    if mid + 500 > data.length then 0.5
    else
      let sample1 := sliceD data 100 600
      let sample2 := sliceD data mid (mid + 500)
      if byteSimilarity sample1 sample2 > 0.7 then 0.7 else 0.4

/-- `calculateWeightedScore` from image_analyzer.go. -/
def ImageAnalyzer.calculateWeightedScore (a : ImageAnalyzer) (signals : ImageSignals) : ℚ :=
  let w := a.weights
  let score :=
    signals.MetadataScore * w.MetadataScore +
    signals.ColorDistribution * w.ColorDistribution +
    signals.EdgeConsistency * w.EdgeConsistency +
    signals.NoisePattern * w.NoisePattern +
    signals.CompressionAnalysis * w.CompressionAnalysis +
    signals.SymmetryScore * w.SymmetryDetection
  let totalWeight :=
    w.MetadataScore + w.ColorDistribution + w.EdgeConsistency +
    w.NoisePattern + w.CompressionAnalysis + w.SymmetryDetection
  let score := if totalWeight > 0 then score / totalWeight else score
  clamp01 score

/-- `Analyze` from image_analyzer.go.  `detectImageFormat` is proven total
below; the `getD` default is unreachable. -/
def ImageAnalyzer.analyze (a : ImageAnalyzer) (data : List Nat) : ImageAnalysisResult :=
  let format := (detectImageFormat data).getD "unknown"
  let metadata := a.extractMetadata data format
  let stats := a.getImageStats data format
  let signals : ImageSignals :=
    { MetadataScore := a.analyzeMetadata metadata
      ColorDistribution := a.analyzeColorDistribution data format
      EdgeConsistency := a.analyzeEdgeConsistency data format
      NoisePattern := a.analyzeNoisePattern data format
      CompressionAnalysis := a.analyzeCompression data format
      SymmetryScore := a.analyzeSymmetry data format }
  { AIScore := a.calculateWeightedScore signals
    Signals := signals
    Metadata := metadata
    Stats := stats }

/-! ## Audio analyzer (the audio detection source file of the service
package) -/

/-- `calculateEntropy` (shared helper of the service package): Shannon
entropy of the byte distribution, normalized by 8; 0 on empty input. -/
def calculateEntropy (data : List Nat) : ℚ :=
  if data.length = 0 then 0 else byteEntropy data / 8

/-- `containsAIAudioMarker`: AI audio generator markers. -/
def audioAIMarkers : List String :=
  ["elevenlabs", "eleven labs", "murf", "play.ht",
   "resemble", "descript", "synthesia", "wellsaid",
   "suno", "udio", "musicgen", "riffusion",
   "ai generated", "ai-generated", "synthetic voice",
   "text to speech", "text-to-speech", "tts",
   "voice clone", "cloned voice"]

/-- `containsAIAudioMarker` over byte content. -/
def containsAIAudioMarker (s : List Nat) : Bool :=
  let lower := s.map byteLower
  audioAIMarkers.any (fun m => listContains lower (strBytes m))

/-- `containsRecordingMarker`: markers of a real recording. -/
def recordingMarkers : List String :=
  ["recorded", "recording", "studio", "microphone",
   "live", "concert", "session", "interview",
   "iphone", "android", "voice memo"]

/-- `containsRecordingMarker` over byte content. -/
def containsRecordingMarker (s : List Nat) : Bool :=
  let lower := s.map byteLower
  recordingMarkers.any (fun m => listContains lower (strBytes m))

/-- The encoder table of `extractAudioEncoder`, in source listing order.
The Go code builds this as a `map` and ranges over it, so the order in
which keys are tried is randomized anew at every call. -/
def audioEncoderTable : List (String × String) :=
  [("lame", "LAME"), ("ffmpeg", "ffmpeg"), ("audacity", "Audacity"),
   ("adobe", "Adobe Audition"), ("logic", "Logic Pro"), ("pro tools", "Pro Tools"),
   ("ableton", "Ableton Live"), ("fl studio", "FL Studio"),
   ("elevenlabs", "ElevenLabs"), ("suno", "Suno AI"), ("udio", "Udio")]

/-- `extractAudioEncoder` over byte content.  `ord` is the iteration
order of the Go map range observed by this call: Go returns the first
match in that (randomized) order, so content matching several keys makes
the result genuinely nondeterministic across calls. -/
def extractAudioEncoder (ord : List (String × String)) (s : List Nat) : String :=
  let lower := s.map byteLower
  match ord.find? (fun p => listContains lower (strBytes p.1)) with
  | some p => p.2
  | none => ""

/-- `AudioAnalyzerWeights`. -/
structure AudioAnalyzerWeights where
  MetadataScore : ℚ
  FormatAnalysis : ℚ
  PatternAnalysis : ℚ
  QualityIndicators : ℚ
  AISignatures : ℚ
  NoiseProfile : ℚ
deriving DecidableEq

/-- `DefaultAudioWeights`. -/
def DefaultAudioWeights : AudioAnalyzerWeights where
  MetadataScore := 0.25
  FormatAnalysis := 0.15
  PatternAnalysis := 0.20
  QualityIndicators := 0.15
  AISignatures := 0.15
  NoiseProfile := 0.10

/-- `AudioSignals`. -/
structure AudioSignals where
  MetadataScore : ℚ := 0
  FormatAnalysis : ℚ := 0
  PatternAnalysis : ℚ := 0
  QualityIndicators : ℚ := 0
  AISignatures : ℚ := 0
  NoiseProfile : ℚ := 0
deriving DecidableEq

/-- `AudioMetadata`. -/
structure AudioMetadata where
  Format : String := ""
  SampleRate : Nat := 0
  Channels : Nat := 0
  BitDepth : Nat := 0
  Bitrate : Nat := 0
  Duration : ℚ := 0
  HasID3 : Bool := false
  Artist : String := ""
  Title : String := ""
  EncoderName : String := ""
  IsAIMarked : Bool := false
  HasRecording : Bool := false
deriving DecidableEq

/-- `AudioStats`. -/
structure AudioStats where
  FileSize : Nat := 0
  EstimatedFrames : Nat := 0
  SilenceRatio : ℚ := 0
  PeakAmplitude : ℚ := 0
  DynamicRange : ℚ := 0
deriving DecidableEq

/-- `AudioAnalysisResult`. -/
structure AudioAnalysisResult where
  AIScore : ℚ := 0
  Signals : AudioSignals := {}
  Metadata : AudioMetadata := {}
  Stats : AudioStats := {}
deriving DecidableEq

/-- `AudioAnalyzer` struct. -/
structure AudioAnalyzer where
  weights : AudioAnalyzerWeights

/-- `NewAudioAnalyzer`. -/
def NewAudioAnalyzer : AudioAnalyzer := ⟨DefaultAudioWeights⟩

/-- `detectAudioFormat`, with every byte access checked: `none` exactly
when Go would index out of bounds. -/
def detectAudioFormat (data : List Nat) : Option String :=
  if data.length < 12 then some "unknown"
  else do
    let b0 ← byteAt data 0
    let b1 ← byteAt data 1
    let b2 ← byteAt data 2
    if b0 == 0xFF && Nat.land b1 0xE0 == 0xE0 then pure "mp3"
    else if b0 == 73 && b1 == 68 && b2 == 51 then pure "mp3"
    else do
      let head4 ← slice? data 0 4
      let mid4 ← slice? data 8 12
      if head4 == strBytes "RIFF" && mid4 == strBytes "WAVE" then pure "wav"
      else if head4 == strBytes "fLaC" then pure "flac"
      else if head4 == strBytes "OggS" then pure "ogg"
      else do
        let ftyp ← slice? data 4 8
        if ftyp == strBytes "ftyp" then
          -- the brand comparison of the source is value-irrelevant:
          -- every branch returns "m4a"
          pure "m4a"
        else if b0 == 0xFF && Nat.land b1 0xF0 == 0xF0 then pure "aac"
        else pure "unknown"

/-- `analyzeMP3`. -/
def AudioAnalyzer.analyzeMP3 (_ : AudioAnalyzer) (ord : List (String × String))
    (data : List Nat) :
    AudioMetadata × AudioStats :=
  let meta : AudioMetadata := { Format := "mp3" }
  let stats : AudioStats := { FileSize := data.length }
  let meta :=
    if data.length > 10 && byteD data 0 == 73 && byteD data 1 == 68 && byteD data 2 == 51 then
      let meta := { meta with HasID3 := true }
      let id3Size := Nat.lor (Nat.lor (Nat.lor (byteD data 6 * 2097152)
        (byteD data 7 * 16384)) (byteD data 8 * 128)) (byteD data 9)
      if id3Size > 0 && id3Size + 10 < data.length then
        let id3Data := sliceD data 10 (10 + id3Size)
        let meta := if containsAIAudioMarker id3Data then { meta with IsAIMarked := true } else meta
        let meta := { meta with EncoderName := extractAudioEncoder ord id3Data }
        if containsRecordingMarker id3Data then { meta with HasRecording := true } else meta
      else meta
    else meta
  let meta :=
    match (List.range (data.length - 4)).find?
        (fun i => byteD data i == 0xFF && Nat.land (byteD data (i + 1)) 0xE0 == 0xE0) with
    | none => meta
    | some i =>
      let header := u32be (sliceD data i (i + 4))
      let bitrateIdx := Nat.land (header / 4096) 0x0F
      let srIdx := Nat.land (header / 1024) 0x03
      let channelMode := Nat.land (header / 64) 0x03
      let meta :=
        if srIdx < 3 then { meta with SampleRate := [44100, 48000, 32000, 0].getD srIdx 0 }
        else meta
      let meta := { meta with Channels := if channelMode == 3 then 1 else 2 }
      let bitrates : List Nat := [0, 32, 40, 48, 56, 64, 80, 96, 112, 128, 160, 192, 224, 256, 320, 0]
      if bitrateIdx < 15 then { meta with Bitrate := bitrates.getD bitrateIdx 0 }
      else meta
  let meta :=
    if data.length ≥ 128 &&
        sliceD data (data.length - 128) (data.length - 125) == strBytes "TAG" then
      { meta with HasID3 := true }
    else meta
  (meta, stats)

/-- `analyzeWAV`. -/
def AudioAnalyzer.analyzeWAV (_ : AudioAnalyzer) (data : List Nat) :
    AudioMetadata × AudioStats :=
  let meta : AudioMetadata := { Format := "wav" }
  let stats : AudioStats := { FileSize := data.length }
  if data.length < 44 then (meta, stats)
  else
    let meta :=
      if sliceD data 12 16 == strBytes "fmt " then
        let audioFormat := u16le (sliceD data 20 22)
        let meta := if audioFormat == 1 then { meta with EncoderName := "PCM" } else meta
        { meta with
          Channels := u16le (sliceD data 22 24)
          SampleRate := u32le (sliceD data 24 28)
          BitDepth := u16le (sliceD data 34 36) }
      else meta
    let meta :=
      match ((List.range (data.length - 8)).filter (fun i => 36 ≤ i)).find?
          (fun i => sliceD data i (i + 4) == strBytes "LIST") with
      | none => meta
      | some i =>
        let chunkSize := u32le (sliceD data (i + 4) (i + 8))
        if i + 8 + chunkSize ≤ data.length then
          let listData := sliceD data (i + 8) (i + 8 + chunkSize)
          let meta := if containsAIAudioMarker listData then { meta with IsAIMarked := true } else meta
          if containsRecordingMarker listData then { meta with HasRecording := true } else meta
        else meta
    (meta, stats)

/-- The FLAC metadata-block walk of `analyzeFLAC`: each step advances by
`4 + blockSize ≥ 4`, capped at offset 10000. -/
def flacBlockWalk (data : List Nat) (ord : List (String × String)) :
    Nat → Nat → AudioMetadata → AudioMetadata
  | 0, _, meta => meta
  | fuel + 1, i, meta =>
    if i < data.length - 4 && i < 10000 then
      let blockType := Nat.land (byteD data i) 0x7F
      let isLast := Nat.land (byteD data i) 0x80 ≠ 0
      let blockSize := byteD data (i + 1) * 65536 + byteD data (i + 2) * 256 + byteD data (i + 3)
      let meta :=
        if blockType == 4 && i + 4 + blockSize ≤ data.length then
          let commentData := sliceD data (i + 4) (i + 4 + blockSize)
          let meta :=
            if containsAIAudioMarker commentData then { meta with IsAIMarked := true } else meta
          { meta with EncoderName := extractAudioEncoder ord commentData }
        else meta
      if isLast then meta else flacBlockWalk data ord fuel (i + (4 + blockSize)) meta
    else meta

/-- `analyzeFLAC`. -/
def AudioAnalyzer.analyzeFLAC (_ : AudioAnalyzer) (ord : List (String × String))
    (data : List Nat) :
    AudioMetadata × AudioStats :=
  let meta : AudioMetadata := { Format := "flac" }
  let stats : AudioStats := { FileSize := data.length }
  if data.length < 42 then (meta, stats)
  else
    let sr := byteD data 18 * 4096 + byteD data 19 * 16 + byteD data 20 / 16
    let meta := if data.length ≥ 22 then { meta with SampleRate := sr } else meta
    let meta :=
      if data.length ≥ 21 then
        { meta with Channels := Nat.land (byteD data 20 / 2) 0x07 + 1 }
      else meta
    let meta :=
      if data.length ≥ 22 then
        { meta with BitDepth :=
            Nat.land (byteD data 20) 0x01 * 16 + Nat.land (byteD data 21 / 16) 0x0F + 1 }
      else meta
    (flacBlockWalk data ord (data.length + 1) 4 meta, stats)

/-- `analyzeOGG`. -/
def AudioAnalyzer.analyzeOGG (_ : AudioAnalyzer) (data : List Nat) :
    AudioMetadata × AudioStats :=
  let meta : AudioMetadata := { Format := "ogg" }
  let stats : AudioStats := { FileSize := data.length }
  let head := sliceD data 0 (min data.length 1000)
  let meta := if listContains head (strBytes "vorbis") then { meta with EncoderName := "Vorbis" } else meta
  let meta :=
    if listContains head (strBytes "OpusHead") then
      { meta with Format := "opus", EncoderName := "Opus" }
    else meta
  let meta :=
    if data.length > 500 then
      let headerData := sliceD data 0 (min data.length 5000)
      if containsAIAudioMarker headerData then { meta with IsAIMarked := true } else meta
    else meta
  (meta, stats)

/-- `analyzeM4A`. -/
def AudioAnalyzer.analyzeM4A (_ : AudioAnalyzer) (ord : List (String × String))
    (data : List Nat) :
    AudioMetadata × AudioStats :=
  let meta : AudioMetadata := { Format := "m4a" }
  let stats : AudioStats := { FileSize := data.length }
  let searchData := sliceD data 0 (min data.length 10000)
  let meta := if containsAIAudioMarker searchData then { meta with IsAIMarked := true } else meta
  ({ meta with EncoderName := extractAudioEncoder ord searchData }, stats)

/-- `analyzeMetadata` (audio). -/
def AudioAnalyzer.analyzeMetadata (_ : AudioAnalyzer) (meta : AudioMetadata) : ℚ :=
  let score : ℚ := 0.5
  let score := if meta.IsAIMarked then score + 0.35 else score
  let score := if meta.HasRecording then score - 0.2 else score
  let score := if meta.HasID3 then score - 0.1 else score
  let aiTools : List String :=
    ["elevenlabs", "eleven labs", "murf", "play.ht",
     "resemble", "descript", "synthesia", "wellsaid",
     "amazon polly", "google tts", "azure speech",
     "suno", "udio", "musicgen", "riffusion"]
  let encoderLower := (strBytes meta.EncoderName).map byteLower
  let score :=
    if aiTools.any (fun t => listContains encoderLower (strBytes t)) then score + 0.3 else score
  clamp01 score

/-- `analyzeFormat` (audio). -/
def AudioAnalyzer.analyzeFormat (_ : AudioAnalyzer) (meta : AudioMetadata)
    (_ : List Nat) : ℚ :=
  let score : ℚ := 0.5
  let standard := [44100, 48000, 96000, 22050, 16000]
  let score :=
    if meta.SampleRate > 0 && !(standard.contains meta.SampleRate) then score + 0.1 else score
  let score := if meta.SampleRate ≥ 96000 && meta.BitDepth ≥ 24 then score + 0.1 else score
  if meta.Channels == 1 then score + 0.1 else score

/-- `analyzePatterns` (audio). -/
def AudioAnalyzer.analyzePatterns (_ : AudioAnalyzer) (data : List Nat)
    (_ : String) : ℚ :=
  if data.length < 5000 then 0.5
  else
    let regionSize := data.length / 5
    let entropies : List ℚ := ([1, 2, 3, 4] : List Nat).filterMap (fun i =>
      let start := i * regionSize
      let stop := start + min 2000 (data.length - start)
      if stop > start then some (calculateEntropy (sliceD data start stop)) else none)
    if entropies.length < 2 then 0.5
    else
      let mean := qsum entropies / (entropies.length : ℚ)
      let variance := qvarAbout entropies mean
      if variance > 0.05 then 0.6 else 0.4

/-- `analyzeQuality` (audio). -/
def AudioAnalyzer.analyzeQuality (_ : AudioAnalyzer) (meta : AudioMetadata)
    (stats : AudioStats) : ℚ :=
  let score : ℚ := 0.5
  let score := if meta.Bitrate > 0 && meta.Bitrate < 64 then score + 0.1 else score
  let score := if meta.Bitrate > 320 then score + 0.1 else score
  if stats.FileSize > 0 && stats.FileSize < 10000 then score + 0.2 else score

/-- The watermark list of `detectAISignatures`. -/
def audioWatermarks : List String :=
  ["elevenlabs", "murf.ai", "play.ht", "resemble.ai",
   "suno", "udio", "generated", "synthetic", "ai voice",
   "text-to-speech", "tts", "voice clone"]

/-- `detectAISignatures` (audio). -/
def AudioAnalyzer.detectAISignatures (_ : AudioAnalyzer) (data : List Nat)
    (meta : AudioMetadata) : ℚ :=
  let score : ℚ := 0
  let searchData := (sliceD data 0 (min data.length 50000)).map byteLower
  let score :=
    if audioWatermarks.any (fun m => listContains searchData (strBytes m)) then score + 0.3
    else score
  let score := if meta.IsAIMarked then score + 0.4 else score
  minQ 1 score

/-- `analyzeNoiseProfile` (audio). -/
def AudioAnalyzer.analyzeNoiseProfile (_ : AudioAnalyzer) (data : List Nat)
    (_ : String) : ℚ :=
  if data.length < 10000 then 0.5
  else
    let start := data.length / 3
    let stop := start + min 5000 (data.length - start)
    let sample := sliceD data start stop
    let idxs := (List.range sample.length).filter
      (fun i => i % 100 == 0 && i < sample.length - 200)
    let repeatCount := (idxs.filter (fun i =>
      byteSimilarity (sliceD sample i (i + 100)) (sliceD sample (i + 100) (i + 200)) > 0.9)).length
    if repeatCount > 5 then 0.7 else 0.4

/-- `calculateWeightedScore` (audio). -/
def AudioAnalyzer.calculateWeightedScore (a : AudioAnalyzer) (signals : AudioSignals) : ℚ :=
  let w := a.weights
  let score :=
    signals.MetadataScore * w.MetadataScore +
    signals.FormatAnalysis * w.FormatAnalysis +
    signals.PatternAnalysis * w.PatternAnalysis +
    signals.QualityIndicators * w.QualityIndicators +
    signals.AISignatures * w.AISignatures +
    signals.NoiseProfile * w.NoiseProfile
  let totalWeight :=
    w.MetadataScore + w.FormatAnalysis + w.PatternAnalysis +
    w.QualityIndicators + w.AISignatures + w.NoiseProfile
  let score := if totalWeight > 0 then score / totalWeight else score
  clamp01 score

/-- `Analyze` (audio).  `detectAudioFormat` is proven total below; the
`getD` default is unreachable. -/
def AudioAnalyzer.analyze (a : AudioAnalyzer) (ord : List (String × String))
    (data : List Nat) : AudioAnalysisResult :=
  let format := (detectAudioFormat data).getD "unknown"
  let ms :=
    if format == "mp3" then a.analyzeMP3 ord data
    else if format == "wav" then a.analyzeWAV data
    else if format == "flac" then a.analyzeFLAC ord data
    else if format == "ogg" then a.analyzeOGG data
    else if format == "m4a" || format == "aac" then a.analyzeM4A ord data
    else ({ Format := format }, { FileSize := data.length })
  let metadata := ms.1
  let stats := ms.2
  let signals : AudioSignals :=
    { MetadataScore := a.analyzeMetadata metadata
      FormatAnalysis := a.analyzeFormat metadata data
      PatternAnalysis := a.analyzePatterns data format
      QualityIndicators := a.analyzeQuality metadata stats
      AISignatures := a.detectAISignatures data metadata
      NoiseProfile := a.analyzeNoiseProfile data format }
  { AIScore := a.calculateWeightedScore signals
    Signals := signals
    Metadata := metadata
    Stats := stats }

/-! ## Video analyzer (the video detection source file of the service
package), including the MP4 atom walk of claim C4 -/

/-- `containsAIMarker` marker list (video). -/
def videoAIMarkers : List String :=
  ["runway", "pika", "sora", "gen-2", "gen2",
   "stable video", "stablevideo", "modelscope",
   "deforum", "animatediff", "zeroscope",
   "ai generated", "ai-generated", "synthetic",
   "dall-e", "midjourney"]

/-- `containsAIMarker` over byte content. -/
def containsAIMarker (s : List Nat) : Bool :=
  let lower := s.map byteLower
  videoAIMarkers.any (fun m => listContains lower (strBytes m))

/-- The encoder table of `extractEncoder`, in source listing order.  As
with the audio table, the Go code ranges over a `map`, so the order in
which keys are tried is randomized anew at every call. -/
def videoEncoderTable : List (String × String) :=
  [("lavf", "ffmpeg"), ("ffmpeg", "ffmpeg"), ("handbrake", "HandBrake"),
   ("premiere", "Adobe Premiere"), ("final cut", "Final Cut Pro"),
   ("davinci", "DaVinci Resolve"), ("x264", "x264"), ("x265", "x265"),
   ("runway", "Runway"), ("pika", "Pika Labs"), ("sora", "OpenAI Sora"),
   ("modelscope", "ModelScope")]

/-- `extractEncoder` over byte content; `ord` is the iteration order of
the Go map range observed by this call (first match wins). -/
def extractEncoder (ord : List (String × String)) (s : List Nat) : String :=
  let lower := s.map byteLower
  match ord.find? (fun p => listContains lower (strBytes p.1)) with
  | some p => p.2
  | none => ""

/-- `VideoAnalyzerWeights`. -/
structure VideoAnalyzerWeights where
  MetadataScore : ℚ
  ContainerAnalysis : ℚ
  AudioPresence : ℚ
  TemporalPattern : ℚ
  EncodingSignature : ℚ
  BitrateConsistency : ℚ
deriving DecidableEq

/-- `DefaultVideoWeights`. -/
def DefaultVideoWeights : VideoAnalyzerWeights where
  MetadataScore := 0.25
  ContainerAnalysis := 0.20
  AudioPresence := 0.15
  TemporalPattern := 0.15
  EncodingSignature := 0.15
  BitrateConsistency := 0.10

/-- `VideoSignals`. -/
structure VideoSignals where
  MetadataScore : ℚ := 0
  ContainerAnalysis : ℚ := 0
  AudioPresence : ℚ := 0
  TemporalPattern : ℚ := 0
  EncodingSignature : ℚ := 0
  BitrateConsistency : ℚ := 0
deriving DecidableEq

/-- `VideoMetadata`. -/
structure VideoMetadata where
  Format : String := ""
  HasAudio : Bool := false
  HasVideo : Bool := false
  EncoderName : String := ""
  CreationTime : String := ""
  Duration : ℚ := 0
  IsAIMarked : Bool := false
deriving DecidableEq

/-- `VideoStats`. -/
structure VideoStats where
  FileSize : Nat := 0
  EstimatedFPS : ℚ := 0
  Width : Nat := 0
  Height : Nat := 0
  VideoBitrate : Nat := 0
  AudioBitrate : Nat := 0
  KeyframeCount : Nat := 0
  ChunkCount : Nat := 0
deriving DecidableEq

/-- `VideoAnalysisResult`. -/
structure VideoAnalysisResult where
  AIScore : ℚ := 0
  Signals : VideoSignals := {}
  Metadata : VideoMetadata := {}
  Stats : VideoStats := {}
deriving DecidableEq

/-- `VideoAnalyzer` struct. -/
structure VideoAnalyzer where
  weights : VideoAnalyzerWeights

/-- `NewVideoAnalyzer`. -/
def NewVideoAnalyzer : VideoAnalyzer := ⟨DefaultVideoWeights⟩

/-- `detectVideoFormat`, with every byte access checked: `none` exactly
when Go would index out of bounds.  The second `ftyp` block with the
brand lookup mirrors the source, where it is unreachable: the first
check already returns "mp4" for every buffer with `ftyp` at offset 4. -/
def detectVideoFormat (data : List Nat) : Option String :=
  if data.length < 12 then some "unknown"
  else do
    let b0 ← byteAt data 0
    let b1 ← byteAt data 1
    let b2 ← byteAt data 2
    let b3 ← byteAt data 3
    let b4 ← byteAt data 4
    let b5 ← byteAt data 5
    let b6 ← byteAt data 6
    let b7 ← byteAt data 7
    if 8 ≤ data.length && b4 == 102 && b5 == 116 && b6 == 121 && b7 == 112 then pure "mp4"
    else do
      let ftyp2 ←
        if 12 ≤ data.length then do
          let f ← slice? data 4 8
          pure (f == strBytes "ftyp")
        else pure false
      if ftyp2 then do
        let brand ← slice? data 8 12
        if brand == strBytes "isom" || brand == strBytes "iso2" || brand == strBytes "mp41" ||
            brand == strBytes "mp42" || brand == strBytes "avc1" || brand == strBytes "M4V " then
          pure "mp4"
        else if brand == strBytes "qt  " then pure "mov"
        else pure "mp4"
      else if b0 == 0x1A && b1 == 0x45 && b2 == 0xDF && b3 == 0xA3 then
        if listContains (data.take (min 100 data.length)) (strBytes "webm") then pure "webm"
        else pure "mkv"
      else do
        let head4 ← slice? data 0 4
        let mid4 ← slice? data 8 12
        if head4 == strBytes "RIFF" && mid4 == strBytes "AVI " then pure "avi"
        else if 4 ≤ data.length && b0 == 70 && b1 == 76 && b2 == 86 then pure "flv"
        else if b0 == 0x47 then
          if 376 < data.length then do
            let s188 ← byteAt data 188
            let s376 ← byteAt data 376
            if s188 == 0x47 && s376 == 0x47 then pure "ts" else pure "unknown"
          else pure "unknown"
        else pure "unknown"

/-- Declared atom size: the big-endian `Uint32` at the atom header
(`analyzeMP4`). -/
def mp4DeclaredSize (data : List Nat) (offset : Nat) : Nat :=
  u32be (sliceD data offset (offset + 4))

/-- Effective atom size after the truncated-file clamp of `analyzeMP4`:
a declared size exceeding the remaining buffer is clamped to the
remaining length. -/
def mp4EffSize (data : List Nat) (offset : Nat) : Nat :=
  let s := mp4DeclaredSize data offset
  if offset + s > data.length then data.length - offset else s

/-- Atom processing of the inner `moov` walk (`parseMovieAtom` switch). -/
def moovProcess (data : List Nat) (ord : List (String × String))
    (offset atomSize : Nat) (ty : List Nat)
    (acc : VideoMetadata × VideoStats) : Option (VideoMetadata × VideoStats) :=
  let meta := acc.1
  if ty == strBytes "trak" then do
    let trackData ← slice? data offset (offset + atomSize)
    let meta := if listContains trackData (strBytes "soun") then { meta with HasAudio := true } else meta
    let meta := if listContains trackData (strBytes "vide") then { meta with HasVideo := true } else meta
    pure (meta, acc.2)
  else if ty == strBytes "meta" then
    if atomSize > 8 then do
      let metaData ← slice? data (offset + 8) (min (offset + atomSize) (offset + 1000))
      let meta := if containsAIMarker metaData then { meta with IsAIMarked := true } else meta
      let enc := extractEncoder ord metaData
      let meta := if enc ≠ "" then { meta with EncoderName := enc } else meta
      pure (meta, acc.2)
    else pure acc
  else pure acc

/-- The `parseMovieAtom` loop: walks the sub-atoms of a `moov` atom from
offset 8; a declared size `< 8` or overrunning the buffer stops the walk. -/
def moovWalk (data : List Nat) (ord : List (String × String)) :
    Nat → Nat → VideoMetadata × VideoStats →
    Option (VideoMetadata × VideoStats)
  | 0, _, _ => none
  | fuel + 1, offset, acc =>
    if offset < data.length - 8 then
      if offset + 8 > data.length then some acc
      else do
        let szb ← slice? data offset (offset + 4)
        let tyb ← slice? data (offset + 4) (offset + 8)
        let atomSize := u32be szb
        if atomSize < 8 || offset + atomSize > data.length then some acc
        else do
          let acc' ← moovProcess data ord offset atomSize tyb acc
          moovWalk data ord fuel (offset + atomSize) acc'
    else some acc

/-- `parseMovieAtom`. -/
def parseMovieAtom (data : List Nat) (ord : List (String × String))
    (meta : VideoMetadata) (stats : VideoStats) :
    Option (VideoMetadata × VideoStats) :=
  moovWalk data ord (data.length + 1) 8 (meta, stats)

/-- Atom processing of the top-level walk (`analyzeMP4` switch). -/
def mp4Process (data : List Nat) (ord : List (String × String))
    (offset atomSize : Nat) (ty : List Nat)
    (acc : VideoMetadata × VideoStats) : Option (VideoMetadata × VideoStats) :=
  if ty == strBytes "moov" then do
    let sub ← slice? data offset (offset + atomSize)
    parseMovieAtom sub ord acc.1 acc.2
  else if ty == strBytes "mdat" then
    pure (acc.1, { acc.2 with ChunkCount := acc.2.ChunkCount + 1 })
  else if ty == strBytes "ftyp" then
    if atomSize > 8 then do
      let ftypData ← slice? data (offset + 8) (min (offset + atomSize) (offset + 100))
      if containsAIMarker ftypData then pure ({ acc.1 with IsAIMarked := true }, acc.2)
      else pure acc
    else pure acc
  else if ty == strBytes "udta" then
    if atomSize > 8 then do
      let udtaData ← slice? data (offset + 8) (min (offset + atomSize) (offset + 500))
      let meta := { acc.1 with EncoderName := extractEncoder ord udtaData }
      let meta := if containsAIMarker udtaData then { meta with IsAIMarked := true } else meta
      pure (meta, acc.2)
    else pure acc
  else pure acc

/-- The `analyzeMP4` atom loop: a declared size `< 8` stops the walk, a
declared size overrunning the buffer is clamped (`mp4EffSize`), and the
offset advances by the effective size each step. -/
def mp4Walk (data : List Nat) (ord : List (String × String)) :
    Nat → Nat → VideoMetadata × VideoStats →
    Option (VideoMetadata × VideoStats)
  | 0, _, _ => none
  | fuel + 1, offset, acc =>
    if offset < data.length - 8 then
      if offset + 8 > data.length then some acc
      else do
        let szb ← slice? data offset (offset + 4)
        let tyb ← slice? data (offset + 4) (offset + 8)
        if u32be szb < 8 then some acc
        else do
          let acc' ← mp4Process data ord offset (mp4EffSize data offset) tyb acc
          mp4Walk data ord fuel (offset + mp4EffSize data offset) acc'
    else some acc

/-- `analyzeMP4`. -/
def VideoAnalyzer.analyzeMP4 (_ : VideoAnalyzer) (ord : List (String × String))
    (data : List Nat) : Option (VideoMetadata × VideoStats) :=
  mp4Walk data ord (data.length + 1) 0
    ({ Format := "mp4", HasVideo := true }, { FileSize := data.length })

/-- `analyzeWebM`. -/
def VideoAnalyzer.analyzeWebM (_ : VideoAnalyzer) (ord : List (String × String))
    (data : List Nat) :
    VideoMetadata × VideoStats :=
  let meta : VideoMetadata := { Format := "webm", HasVideo := true }
  let stats : VideoStats := { FileSize := data.length }
  let dataStr := sliceD data 0 (min data.length 2000)
  let meta := if listContains data [0x81] then { meta with HasAudio := true } else meta
  let meta := { meta with EncoderName := extractEncoder ord dataStr }
  let meta := if containsAIMarker dataStr then { meta with IsAIMarked := true } else meta
  (meta, stats)

/-- `analyzeAVI`. -/
def VideoAnalyzer.analyzeAVI (_ : VideoAnalyzer) (ord : List (String × String))
    (data : List Nat) :
    VideoMetadata × VideoStats :=
  let meta : VideoMetadata := { Format := "avi", HasVideo := true }
  let stats : VideoStats := { FileSize := data.length }
  let meta := if listContains data (strBytes "auds") then { meta with HasAudio := true } else meta
  let meta :=
    if data.length > 500 then
      let headerData := sliceD data 0 500
      let meta := { meta with EncoderName := extractEncoder ord headerData }
      if containsAIMarker headerData then { meta with IsAIMarked := true } else meta
    else meta
  (meta, stats)

/-- `analyzeMetadata` (video). -/
def VideoAnalyzer.analyzeMetadata (_ : VideoAnalyzer) (meta : VideoMetadata) : ℚ :=
  let score : ℚ := 0.5
  let score := if meta.IsAIMarked then score + 0.4 else score
  let score := if !meta.HasAudio then score + 0.15 else score
  let aiEncoders : List String :=
    ["runway", "pika", "sora", "gen-2", "gen2",
     "stable video", "stablevideo", "modelscope",
     "deforum", "animatediff", "zeroscope"]
  let encoderLower := (strBytes meta.EncoderName).map byteLower
  let score :=
    if aiEncoders.any (fun t => listContains encoderLower (strBytes t)) then score + 0.3 else score
  let proEncoders : List String :=
    ["premiere", "final cut", "davinci", "avid",
     "ffmpeg", "handbrake", "x264", "x265"]
  let score :=
    if proEncoders.any (fun t => listContains encoderLower (strBytes t)) then score - 0.1 else score
  clamp01 score

/-- `analyzeContainer` (video). -/
def VideoAnalyzer.analyzeContainer (_ : VideoAnalyzer) (data : List Nat)
    (format : String) : ℚ :=
  if data.length < 1000 then 0.5
  else
    let score : ℚ := 0.5
    if format == "mp4" || format == "mov" then
      let hasMoovAtom := listContains (data.take (min data.length 100000)) (strBytes "moov")
      let hasMdatAtom := listContains data (strBytes "mdat")
      let score := if !hasMoovAtom then score + 0.2 else score
      if !hasMdatAtom then score + 0.2 else score
    else if format == "webm" then
      let hasSegment := listContains (data.take (min data.length 1000)) [0x18, 0x53, 0x80, 0x67]
      if !hasSegment then score + 0.2 else score
    else score

/-- `analyzeAudioPresence` (video). -/
def VideoAnalyzer.analyzeAudioPresence (_ : VideoAnalyzer) (meta : VideoMetadata)
    (_ : List Nat) (_ : String) : ℚ :=
  if meta.HasAudio then 0.3 else 0.7

/-- `analyzeTemporalPattern` (video). -/
def VideoAnalyzer.analyzeTemporalPattern (_ : VideoAnalyzer) (data : List Nat)
    (_ : String) : ℚ :=
  if data.length < 10000 then 0.5
  else
    let regionSize := data.length / 6
    let samples : List (Option (List Nat)) := ([0, 1, 2, 3, 4] : List Nat).map (fun i =>
      let start := (i + 1) * regionSize
      let stop := start + min 1000 (data.length - start)
      if stop > start then some (sliceD data start stop) else none)
    let pairs := (listPairs samples).filterMap (fun p =>
      match p with
      | (some s1, some s2) => some (byteSimilarity s1 s2)
      | _ => none)
    let repetitionScore := qsum (pairs.map (fun sim => if sim > 0.5 then sim else 0))
    let comparisons := pairs.length
    if comparisons > 0 then
      let avgRepetition := repetitionScore / (comparisons : ℚ)
      if avgRepetition > 0.3 then 0.7 else 0.4
    else 0.4

/-- `analyzeEncodingSignature` (video). -/
def VideoAnalyzer.analyzeEncodingSignature (_ : VideoAnalyzer) (data : List Nat)
    (meta : VideoMetadata) : ℚ :=
  let hasH264 := listContains data (strBytes "avc1") || listContains data (strBytes "h264")
  let hasH265 := listContains data (strBytes "hvc1") || listContains data (strBytes "hevc")
  let hasVP9 := listContains data (strBytes "vp09")
  let hasAV1 := listContains data (strBytes "av01")
  let score : ℚ := 0.5
  let score := if hasH264 || hasH265 || hasVP9 || hasAV1 then 0.45 else score
  if !hasH264 && !hasH265 && !hasVP9 && !hasAV1 then
    if meta.Format == "mp4" || meta.Format == "webm" then 0.6 else score
  else score

/-- `analyzeBitrateConsistency` (video). -/
def VideoAnalyzer.analyzeBitrateConsistency (_ : VideoAnalyzer) (data : List Nat)
    (stats : VideoStats) : ℚ :=
  if stats.FileSize < 100000 then 0.6
  else if data.length < 10000 then 0.5
  else
    let chunkSize := data.length / 5
    let entropies : List ℚ := ([0, 1, 2, 3, 4] : List Nat).filterMap (fun i =>
      let start := i * chunkSize
      let stop := start + min chunkSize (data.length - start)
      if stop > start then some (calculateEntropy (sliceD data start stop)) else none)
    if entropies.length < 2 then 0.5
    else
      let mean := qsum entropies / (entropies.length : ℚ)
      let variance := qvarAbout entropies mean
      if variance > 0.1 then 0.6 else 0.4

/-- `calculateWeightedScore` (video). -/
def VideoAnalyzer.calculateWeightedScore (a : VideoAnalyzer) (signals : VideoSignals) : ℚ :=
  let w := a.weights
  let score :=
    signals.MetadataScore * w.MetadataScore +
    signals.ContainerAnalysis * w.ContainerAnalysis +
    signals.AudioPresence * w.AudioPresence +
    signals.TemporalPattern * w.TemporalPattern +
    signals.EncodingSignature * w.EncodingSignature +
    signals.BitrateConsistency * w.BitrateConsistency
  let totalWeight :=
    w.MetadataScore + w.ContainerAnalysis + w.AudioPresence +
    w.TemporalPattern + w.EncodingSignature + w.BitrateConsistency
  let score := if totalWeight > 0 then score / totalWeight else score
  clamp01 score

/-- `Analyze` (video).  `detectVideoFormat` and `analyzeMP4` are proven
total below; the `getD` defaults are unreachable. -/
def VideoAnalyzer.analyze (a : VideoAnalyzer) (ord : List (String × String))
    (data : List Nat) : VideoAnalysisResult :=
  let format := (detectVideoFormat data).getD "unknown"
  let ms :=
    if format == "mp4" || format == "mov" then
      (a.analyzeMP4 ord data).getD
        ({ Format := "mp4", HasVideo := true }, { FileSize := data.length })
    else if format == "webm" then a.analyzeWebM ord data
    else if format == "avi" then a.analyzeAVI ord data
    else ({ Format := format }, { FileSize := data.length })
  let metadata := ms.1
  let stats := ms.2
  let signals : VideoSignals :=
    { MetadataScore := a.analyzeMetadata metadata
      ContainerAnalysis := a.analyzeContainer data format
      AudioPresence := a.analyzeAudioPresence metadata data format
      TemporalPattern := a.analyzeTemporalPattern data format
      EncodingSignature := a.analyzeEncodingSignature data metadata
      BitrateConsistency := a.analyzeBitrateConsistency data stats }
  { AIScore := a.calculateWeightedScore signals
    Signals := signals
    Metadata := metadata
    Stats := stats }

/-! ## Detector layer (internal/service/detector.go, text_detector.go,
media_detectors.go)

External I/O (URL fetches and the optional detector APIs) is modelled by
an explicit environment `NetEnv`: each field gives the outcome that the
corresponding network call would observe during one `Detect` run.  Two
runs of `Detect` are two evaluations under possibly different
environments.  Wall-clock time (`ProcessingTime`) and logging are outside
the model. -/

/-- `DetectorConfig` (the `Timeout` field concerns only real time and is
not modelled). -/
structure DetectorConfig where
  HiveAPIKey : String := ""
  OpenAIAPIKey : String := ""
  GPTZeroAPIKey : String := ""
deriving DecidableEq

/-- `DetectionInput` from detector.go. -/
structure DetectionInput where
  URL : String := ""
  Text : String := ""
  Data : List Nat := []
  Filename : String := ""
  ContentType : String := ""
deriving DecidableEq

/-- `DetectionResult` from detector.go (`ProcessingTime` not modelled). -/
structure DetectionResult where
  Human : Bool
  Confidence : ℚ
  AIScore : ℚ
  ContentType : String
  Detectors : List String
  ContentHash : String := ""
deriving DecidableEq

/-- Outcomes of the impure operations observable during one `Detect` run:
the network calls, and the iteration orders of the two encoder `map`s
(Go randomizes map range order, so each run observes its own order; Go in
fact draws a fresh order at every `range` statement, which only widens
the nondeterminism this models).  Two runs of `Detect` are two
evaluations under possibly different environments. -/
structure NetEnv where
  fetchText : String → Except Unit String
  fetchImage : String → Except Unit (List Nat)
  fetchAudio : String → Except Unit (List Nat)
  fetchVideo : String → Except Unit (List Nat)
  hiveText : String → Except Unit ℚ
  gptZeroText : String → Except Unit ℚ
  openAIText : String → Except Unit ℚ
  hiveImage : List Nat → Except Unit ℚ
  hiveAudio : List Nat → Except Unit ℚ
  hiveVideoURL : String → Except Unit ℚ
  audioEncOrder : List (String × String) := audioEncoderTable
  videoEncOrder : List (String × String) := videoEncoderTable

/-- Errors returned by the four modality detectors. -/
inductive DetectorErr where
  | fetchFailed (msg : String)
  | noContent (msg : String)
deriving DecidableEq

/-- Errors returned by `Detect`: the unsupported-content-type error, or a
wrapped detector error ("detection failed: %w"). -/
inductive DetectErr where
  | unsupportedContentType (ct : String)
  | detectionFailed (e : DetectorErr)
deriving DecidableEq

/-- `filepath.Ext`: the suffix beginning at the final dot in the final
slash-separated element of the path; empty if there is no dot. -/
def filepathExt (filename : String) : List Nat :=
  let bs := strBytes filename
  let tl := (bs.reverse.takeWhile (fun b => b ≠ 47)).reverse
  let ext := (tl.reverse.takeWhile (fun b => b ≠ 46)).reverse
  if ext.length = tl.length then [] else 46 :: ext

/-- `ContentTypeFromFilename` from detector.go. -/
def ContentTypeFromFilename (filename : String) : String :=
  let ext := bytesToString ((filepathExt filename).map byteLower)
  if [".txt", ".md", ".html", ".htm", ".json", ".xml", ".csv"].contains ext then "text"
  else if [".jpg", ".jpeg", ".png", ".gif", ".webp", ".bmp", ".svg"].contains ext then "image"
  else if [".mp3", ".wav", ".flac", ".ogg", ".m4a", ".aac"].contains ext then "audio"
  else if [".mp4", ".mov", ".avi", ".webm", ".mkv", ".wmv"].contains ext then "video"
  else "unknown"

/-- `ContentTypeFromURL` from detector.go: strip the query string, then
classify by extension. -/
def ContentTypeFromURL (url : String) : String :=
  let bs := strBytes url
  let path := bs.takeWhile (fun b => b ≠ 63)
  ContentTypeFromFilename (bytesToString path)

/-- `ContentTypeFromMagicBytes` from detector.go. -/
def ContentTypeFromMagicBytes (data : List Nat) : String :=
  if data.length < 4 then "unknown"
  else
    let b0 := byteD data 0
    let b1 := byteD data 1
    let b2 := byteD data 2
    let b3 := byteD data 3
    if b0 == 0xFF && b1 == 0xD8 && b2 == 0xFF then "image"
    else if b0 == 0x89 && b1 == 0x50 && b2 == 0x4E && b3 == 0x47 then "image"
    else if b0 == 0x47 && b1 == 0x49 && b2 == 0x46 && b3 == 0x38 then "image"
    else if data.length ≥ 12 && b0 == 0x52 && b1 == 0x49 && b2 == 0x46 && b3 == 0x46 &&
        sliceD data 8 12 == [0x57, 0x45, 0x42, 0x50] then "image"
    else if (b0 == 0xFF && Nat.land b1 0xE0 == 0xE0) || (b0 == 0x49 && b1 == 0x44 && b2 == 0x33) then
      "audio"
    else if data.length ≥ 8 && sliceD data 4 8 == [0x66, 0x74, 0x79, 0x70] then "video"
    else if data.length ≥ 12 && b0 == 0x52 && b1 == 0x49 && b2 == 0x46 && b3 == 0x46 &&
        sliceD data 8 12 == [0x57, 0x41, 0x56, 0x45] then "audio"
    else "unknown"

/-- `detectContentType` from detector.go. -/
def detectContentType (input : DetectionInput) : String :=
  if input.Text ≠ "" then "text"
  else if input.Filename ≠ "" then ContentTypeFromFilename input.Filename
  else if input.URL ≠ "" then ContentTypeFromURL input.URL
  else if !input.Data.isEmpty then ContentTypeFromMagicBytes input.Data
  else "unknown"

/-- `hashContent` from detector.go: SHA-256 over the first non-empty of
text, data, URL. -/
def hashContent (input : DetectionInput) : String :=
  if input.Text ≠ "" then sha256Hex (strBytes input.Text)
  else if !input.Data.isEmpty then sha256Hex input.Data
  else if input.URL ≠ "" then sha256Hex (strBytes input.URL)
  else sha256Hex []

/-- `aggregateScoresWeighted` (shared shape of the four per-detector
copies): weighted mean with per-detector weights, defaulting to 1. -/
def aggregateScoresWeighted (table : List (String × ℚ)) (scores : List ℚ)
    (detectors : List String) : ℚ :=
  if scores.isEmpty then 0.5
  else
    let ws : List ℚ := (List.range scores.length).map (fun i =>
      match detectors.get? i with
      | some name =>
        match table.find? (fun w => w.1 == name) with
        | some w => w.2
        | none => 1
      | none => 1)
    let weightedSum := qsum ((scores.zip ws).map (fun p => p.1 * p.2))
    let totalWeight := qsum ws
    if totalWeight == 0 then 0.5 else weightedSum / totalWeight

/-- The detector weight table of `textDetector.aggregateScoresWeighted`. -/
def textDetectorWeights : List (String × ℚ) :=
  [("humanmark", 1.0), ("hive", 1.2), ("gptzero", 1.1), ("openai", 0.9)]

/-- The weight table of `imageDetector.aggregateScoresWeighted`. -/
def imageDetectorWeights : List (String × ℚ) := [("humanmark", 1.0), ("hive", 1.3)]

/-- The weight table of `audioDetector.aggregateScoresWeighted`. -/
def audioDetectorWeights : List (String × ℚ) := [("humanmark", 1.0), ("hive", 1.3)]

/-- The weight table of `videoDetector.aggregateScoresWeighted`. -/
def videoDetectorWeights : List (String × ℚ) := [("humanmark", 1.0), ("hive", 1.4)]

/-- The verdict construction shared by the four detectors:
`human = aiScore < 0.5`, `confidence = abs(aiScore-0.5)*2`. -/
def mkResult (aiScore : ℚ) (ct : String) (detectors : List String) : DetectionResult :=
  { Human := decide (aiScore < 0.5)
    Confidence := absQ (aiScore - 0.5) * 2
    AIScore := aiScore
    ContentType := ct
    Detectors := detectors }

/-- Text-content resolution of `DetectText`: inline text, else a string of
the uploaded bytes, else a URL fetch; empty text is the `noContent`
error. -/
def resolveTextContent (env : NetEnv) (input : DetectionInput) : Except DetectorErr String :=
  let text0 := input.Text
  let text1 := if text0 == "" && !input.Data.isEmpty then bytesToString input.Data else text0
  let fetched : Except DetectorErr String :=
    if text1 == "" && input.URL ≠ "" then
      match env.fetchText input.URL with
      | .error _ => .error (.fetchFailed "failed to fetch text from URL")
      | .ok t => .ok t
    else .ok text1
  match fetched with
  | .error e => .error e
  | .ok text =>
    if text == "" then .error (.noContent "no text content to analyze") else .ok text

/-- Media-content resolution of the three media detectors: uploaded
bytes, else a URL fetch, else the `noContent` error. -/
def resolveMediaData (fetch : String → Except Unit (List Nat)) (input : DetectionInput)
    (fetchMsg noDataMsg : String) : Except DetectorErr (List Nat) :=
  if !input.Data.isEmpty then .ok input.Data
  else if input.URL ≠ "" then
    match fetch input.URL with
    | .error _ => .error (.fetchFailed fetchMsg)
    | .ok d => .ok d
  else .error (.noContent noDataMsg)

/-- One optional external-detector step: when enabled by a configured API
key, a successful call appends its score and name; a failure is only
logged and changes nothing. -/
def withExternalScore (enabled : Bool) (call : Except Unit ℚ)
    (sd : List ℚ × List String) (name : String) : List ℚ × List String :=
  if enabled then
    match call with
    | .error _ => sd
    | .ok s => (sd.1 ++ [s], sd.2 ++ [name])
  else sd

/-- `DetectText` from text_detector.go. -/
def detectText (cfg : DetectorConfig) (env : NetEnv) (input : DetectionInput) :
    Except DetectorErr DetectionResult :=
  match resolveTextContent env input with
  | .error e => .error e
  | .ok text =>
    let analysis := NewTextAnalyzer.analyze text
    let sd : List ℚ × List String := ([analysis.AIScore], ["humanmark"])
    let sd := withExternalScore (cfg.HiveAPIKey ≠ "") (env.hiveText text) sd "hive"
    let sd := withExternalScore (cfg.GPTZeroAPIKey ≠ "") (env.gptZeroText text) sd "gptzero"
    let sd := withExternalScore (cfg.OpenAIAPIKey ≠ "") (env.openAIText text) sd "openai"
    .ok (mkResult (aggregateScoresWeighted textDetectorWeights sd.1 sd.2) "text" sd.2)

/-- `DetectImage` from media_detectors.go. -/
def detectImage (cfg : DetectorConfig) (env : NetEnv) (input : DetectionInput) :
    Except DetectorErr DetectionResult :=
  match resolveMediaData env.fetchImage input "failed to fetch image" "no image data provided" with
  | .error e => .error e
  | .ok imageData =>
    let analysis := NewImageAnalyzer.analyze imageData
    let sd : List ℚ × List String := ([analysis.AIScore], ["humanmark"])
    let sd := withExternalScore (cfg.HiveAPIKey ≠ "") (env.hiveImage imageData) sd "hive"
    .ok (mkResult (aggregateScoresWeighted imageDetectorWeights sd.1 sd.2) "image" sd.2)

/-- `DetectAudio` from media_detectors.go. -/
def detectAudio (cfg : DetectorConfig) (env : NetEnv) (input : DetectionInput) :
    Except DetectorErr DetectionResult :=
  match resolveMediaData env.fetchAudio input "failed to fetch audio" "no audio data provided" with
  | .error e => .error e
  | .ok audioData =>
    let analysis := NewAudioAnalyzer.analyze env.audioEncOrder audioData
    let sd : List ℚ × List String := ([analysis.AIScore], ["humanmark"])
    let sd := withExternalScore (cfg.HiveAPIKey ≠ "") (env.hiveAudio audioData) sd "hive"
    .ok (mkResult (aggregateScoresWeighted audioDetectorWeights sd.1 sd.2) "audio" sd.2)

/-- `DetectVideo` from media_detectors.go; the Hive call needs both a key
and a URL. -/
def detectVideo (cfg : DetectorConfig) (env : NetEnv) (input : DetectionInput) :
    Except DetectorErr DetectionResult :=
  match resolveMediaData env.fetchVideo input "failed to fetch video"
      "video data or URL required for detection" with
  | .error e => .error e
  | .ok videoData =>
    let analysis := NewVideoAnalyzer.analyze env.videoEncOrder videoData
    let sd : List ℚ × List String := ([analysis.AIScore], ["humanmark"])
    let sd := withExternalScore (cfg.HiveAPIKey ≠ "" && input.URL ≠ "")
      (env.hiveVideoURL input.URL) sd "hive"
    .ok (mkResult (aggregateScoresWeighted videoDetectorWeights sd.1 sd.2) "video" sd.2)

/-- The content category `Detect` routes on: the declared `ContentType`,
or `detectContentType` when that is empty or "unknown". -/
def resolvedCategory (input : DetectionInput) : String :=
  if input.ContentType == "unknown" || input.ContentType == "" then detectContentType input
  else input.ContentType

/-- `Detect` from detector.go: resolve the content type, route to the
modality detector, wrap detector errors, then attach the content hash. -/
def detect (cfg : DetectorConfig) (env : NetEnv) (input : DetectionInput) :
    Except DetectErr DetectionResult :=
  let ct := resolvedCategory input
  let input := { input with ContentType := ct }
  let routed : Except DetectErr DetectionResult :=
    if ct == "text" then (detectText cfg env input).mapError .detectionFailed
    else if ct == "image" then (detectImage cfg env input).mapError .detectionFailed
    else if ct == "audio" then (detectAudio cfg env input).mapError .detectionFailed
    else if ct == "video" then (detectVideo cfg env input).mapError .detectionFailed
    else .error (.unsupportedContentType ct)
  match routed with
  | .error e => .error e
  | .ok r => .ok { r with ContentHash := hashContent input }

/-! ## Verification fixtures and statement predicates -/

/-- `true` on `.ok` results. -/
def exceptIsOk {ε α : Type} : Except ε α → Bool
  | .ok _ => true
  | .error _ => false

/-- A detection outcome has a consistent verdict: on success,
`Human = (AIScore < 0.5)` and `Confidence = |AIScore − 0.5| × 2`. -/
def verdictConsistent {ε : Type} : Except ε DetectionResult → Prop
  | .error _ => True
  | .ok r => r.Human = decide (r.AIScore < 0.5) ∧ r.Confidence = |r.AIScore - 0.5| * 2

/-- The `AIScore`/`ContentHash` pair observable by the caller of `Detect`. -/
def detectObservation (e : Except DetectErr DetectionResult) : Option (ℚ × String) :=
  e.toOption.map (fun r => (r.AIScore, r.ContentHash))

/-- The `AIScore` observable by the caller of `Detect`. -/
def detectAIScore (e : Except DetectErr DetectionResult) : Option ℚ :=
  e.toOption.map (fun r => r.AIScore)

/-- Configuration with no external detector API keys. -/
def cfgNoKeys : DetectorConfig := {}

/-- An environment whose text fetch returns `"a"` and whose other network
calls fail. -/
def envFetchA : NetEnv where
  fetchText _ := .ok "a"
  fetchImage _ := .error ()
  fetchAudio _ := .error ()
  fetchVideo _ := .error ()
  hiveText _ := .error ()
  gptZeroText _ := .error ()
  openAIText _ := .error ()
  hiveImage _ := .error ()
  hiveAudio _ := .error ()
  hiveVideoURL _ := .error ()

/-- An environment whose text fetch returns `"furthermore"`. -/
def envFetchB : NetEnv := { envFetchA with fetchText := fun _ => .ok "furthermore" }

/-- An environment where every network call fails. -/
def envAllFail : NetEnv := { envFetchA with fetchText := fun _ => .error () }

/-- A URL-only text-category input: its content must be fetched. -/
def inputUrlText : DetectionInput := { URL := "http://example.com/a.txt", ContentType := "text" }

/-- A plain inline text input. -/
def inputHi : DetectionInput := { Text := "hi" }

/-- An image-category input with arbitrary (malformed) bytes. -/
def inputRawImage : DetectionInput := { Data := [1, 2, 3], ContentType := "image" }

/-- The adversarial sub-3-word text of the C8 counterexample: three
sentences, heavy punctuation variety, one word. -/
def punctText : String := "a! -:. ;()"

/-- A 12-byte `ftyp` header with major brand `qt  ` (QuickTime). -/
def qtBrandBytes : List Nat := [0, 0, 0, 24, 102, 116, 121, 112, 113, 116, 32, 32]

/-- A 12-byte `ftyp` header with major brand `isom`. -/
def isomBrandBytes : List Nat := [0, 0, 0, 24, 102, 116, 121, 112, 105, 115, 111, 109]

/-- An MP4 buffer whose single atom declares size 32 with only 16 bytes
present (truncated file). -/
def truncatedAtomBytes : List Nat :=
  [0, 0, 0, 32, 109, 100, 97, 116, 0, 0, 0, 0, 0, 0, 0, 0]

/-- Two 378-byte buffers agreeing on the first 377 bytes. -/
def prefixBytes1 : List Nat := List.replicate 377 0 ++ [1]

/-- Second buffer of the prefix-agreement pair. -/
def prefixBytes2 : List Nat := List.replicate 377 0 ++ [2]

/-- Text input fixture for the hash claim. -/
def inputHashA : DetectionInput := { Text := "abc", Data := [9, 9, 9], URL := "http://x/1" }

/-- Same text as `inputHashA`, different data and URL. -/
def inputHashB : DetectionInput := { Text := "abc", Data := [7], URL := "http://y/2" }

/-- A three-byte buffer for the sniffer short-input instance. -/
def threeBytes : List Nat := [0, 1, 2]

/-- A 22-byte buffer that sniffs as WebM and whose content contains both
the "runway" and the "ffmpeg" encoder keys. -/
def vidEncBytes : List Nat := [0x1A, 0x45, 0xDF, 0xA3] ++ strBytes "webm runway ffmpeg"

/-- A video-typed input carrying `vidEncBytes`, with no URL. -/
def inputVidEnc : DetectionInput := { Data := vidEncBytes, ContentType := "video" }

/-- The video encoder table in a rotated order (the AI-encoder entries
first): one of the permutations a Go map range can observe. -/
def ordVideoAlt : List (String × String) :=
  videoEncoderTable.drop 8 ++ videoEncoderTable.take 8

/-- An environment whose video-encoder map range observes the rotated
order `ordVideoAlt`; otherwise as `envAllFail`. -/
def envVidOrd2 : NetEnv := { envAllFail with videoEncOrder := ordVideoAlt }

/-! ## Helper lemmas -/

theorem clamp01_nonneg (x : ℚ) : 0 ≤ clamp01 x := by
  unfold clamp01 maxQ minQ
  split <;> split <;> first | rfl | linarith

theorem clamp01_le_one (x : ℚ) : clamp01 x ≤ 1 := by
  unfold clamp01 maxQ minQ
  split <;> split <;> first | rfl | linarith

theorem absQ_eq_abs (x : ℚ) : absQ x = |x| := by
  unfold absQ
  split
  · exact (abs_of_neg (by assumption)).symm
  · exact (abs_of_nonneg (not_lt.1 (by assumption))).symm

theorem verdict_mkResult (q : ℚ) (ct : String) (ds : List String) :
    verdictConsistent (ε := DetectorErr) (.ok (mkResult q ct ds)) := by
  simp [verdictConsistent, mkResult, absQ_eq_abs]

theorem detectText_verdict (cfg : DetectorConfig) (env : NetEnv) (input : DetectionInput) :
    verdictConsistent (detectText cfg env input) := by
  unfold detectText
  cases resolveTextContent env input with
  | error e => simp [verdictConsistent]
  | ok text => exact verdict_mkResult _ _ _

theorem detectImage_verdict (cfg : DetectorConfig) (env : NetEnv) (input : DetectionInput) :
    verdictConsistent (detectImage cfg env input) := by
  unfold detectImage
  cases resolveMediaData env.fetchImage input "failed to fetch image" "no image data provided" with
  | error e => simp [verdictConsistent]
  | ok d => exact verdict_mkResult _ _ _

theorem detectAudio_verdict (cfg : DetectorConfig) (env : NetEnv) (input : DetectionInput) :
    verdictConsistent (detectAudio cfg env input) := by
  unfold detectAudio
  cases resolveMediaData env.fetchAudio input "failed to fetch audio" "no audio data provided" with
  | error e => simp [verdictConsistent]
  | ok d => exact verdict_mkResult _ _ _

theorem detectVideo_verdict (cfg : DetectorConfig) (env : NetEnv) (input : DetectionInput) :
    verdictConsistent (detectVideo cfg env input) := by
  unfold detectVideo
  cases resolveMediaData env.fetchVideo input "failed to fetch video"
      "video data or URL required for detection" with
  | error e => simp [verdictConsistent]
  | ok d => exact verdict_mkResult _ _ _

theorem verdict_mapError (e : Except DetectorErr DetectionResult)
    (h : verdictConsistent e) : verdictConsistent (e.mapError DetectErr.detectionFailed) := by
  cases e with
  | error x => simp [verdictConsistent, Except.mapError]
  | ok r => simpa [verdictConsistent, Except.mapError] using h

theorem detect_verdict (cfg : DetectorConfig) (env : NetEnv) (input : DetectionInput) :
    verdictConsistent (detect cfg env input) := by
  unfold detect
  have hfinal : ∀ (e : Except DetectErr DetectionResult) (h : String), verdictConsistent e →
      verdictConsistent (match e with
        | .error er => Except.error er
        | .ok r => Except.ok { r with ContentHash := h }) := by
    intro e h he
    cases e with
    | error x => simp [verdictConsistent]
    | ok r => simpa [verdictConsistent] using he
  apply hfinal
  split
  any_goals exact verdict_mapError _ (detectText_verdict ..)
  all_goals split
  any_goals exact verdict_mapError _ (detectImage_verdict ..)
  all_goals split
  any_goals exact verdict_mapError _ (detectAudio_verdict ..)
  all_goals split
  any_goals exact verdict_mapError _ (detectVideo_verdict ..)
  all_goals simp [verdictConsistent]

theorem resolveMediaData_data_ok (fetch : String → Except Unit (List Nat))
    (input : DetectionInput) (m1 m2 : String) (hd : input.Data ≠ []) :
    resolveMediaData fetch input m1 m2 = .ok input.Data := by
  simp [resolveMediaData, hd]

theorem detectImage_data_ok (cfg : DetectorConfig) (env : NetEnv) (input : DetectionInput)
    (hd : input.Data ≠ []) : exceptIsOk (detectImage cfg env input) = true := by
  unfold detectImage
  rw [resolveMediaData_data_ok _ _ _ _ hd]
  rfl

theorem detectAudio_data_ok (cfg : DetectorConfig) (env : NetEnv) (input : DetectionInput)
    (hd : input.Data ≠ []) : exceptIsOk (detectAudio cfg env input) = true := by
  unfold detectAudio
  rw [resolveMediaData_data_ok _ _ _ _ hd]
  rfl

theorem detectVideo_data_ok (cfg : DetectorConfig) (env : NetEnv) (input : DetectionInput)
    (hd : input.Data ≠ []) : exceptIsOk (detectVideo cfg env input) = true := by
  unfold detectVideo
  rw [resolveMediaData_data_ok _ _ _ _ hd]
  rfl

theorem exceptIsOk_route (e : Except DetectorErr DetectionResult) (h : String)
    (he : exceptIsOk e = true) :
    exceptIsOk (match e.mapError DetectErr.detectionFailed with
      | .error er => Except.error er
      | .ok r => Except.ok { r with ContentHash := h }) = true := by
  cases e with
  | error x => simp [exceptIsOk] at he
  | ok r => simp [Except.mapError, exceptIsOk]

/-- Claim C3 (corrected): for every input with non-empty `Data` and a content
category of image, audio or video, `detect` returns a result with no error,
regardless of byte content.  The claim's error enumeration misses fetch
failures for URL-only inputs (see the counterexample). -/
theorem C3_media_bytes_no_error (cfg : DetectorConfig) (env : NetEnv) (input : DetectionInput)
    (hd : input.Data ≠ [])
    (hct : input.ContentType = "image" ∨ input.ContentType = "audio" ∨
      input.ContentType = "video") :
    exceptIsOk (detect cfg env input) = true := by
  unfold detect resolvedCategory
  rcases hct with h | h | h <;> rw [h] <;> simp only [beq_iff_eq] <;>
    norm_num <;> apply exceptIsOk_route
  · exact detectImage_data_ok _ _ _ hd
  · exact detectAudio_data_ok _ _ _ hd
  · exact detectVideo_data_ok _ _ _ hd

theorem resolveTextContent_no_url (env1 env2 : NetEnv) (input : DetectionInput)
    (hu : input.URL = "") : resolveTextContent env1 input = resolveTextContent env2 input := by
  unfold resolveTextContent
  rw [hu]
  simp

theorem resolveMediaData_no_url (f1 f2 : String → Except Unit (List Nat))
    (input : DetectionInput) (m1 m2 : String) (hu : input.URL = "") :
    resolveMediaData f1 input m1 m2 = resolveMediaData f2 input m1 m2 := by
  unfold resolveMediaData
  rw [hu]
  simp

theorem detectText_det (cfg : DetectorConfig) (env1 env2 : NetEnv) (input : DetectionInput)
    (hh : cfg.HiveAPIKey = "") (hg : cfg.GPTZeroAPIKey = "") (ho : cfg.OpenAIAPIKey = "")
    (hu : input.URL = "") : detectText cfg env1 input = detectText cfg env2 input := by
  unfold detectText
  rw [resolveTextContent_no_url env1 env2 input hu]
  cases resolveTextContent env2 input with
  | error e => rfl
  | ok t => simp [hh, hg, ho, withExternalScore]

theorem detectImage_det (cfg : DetectorConfig) (env1 env2 : NetEnv) (input : DetectionInput)
    (hh : cfg.HiveAPIKey = "") (hu : input.URL = "") :
    detectImage cfg env1 input = detectImage cfg env2 input := by
  unfold detectImage
  rw [resolveMediaData_no_url env1.fetchImage env2.fetchImage input _ _ hu]
  cases resolveMediaData env2.fetchImage input "failed to fetch image" "no image data provided" with
  | error e => rfl
  | ok d => simp [hh, withExternalScore]

theorem detect_env_independent (cfg : DetectorConfig) (env1 env2 : NetEnv)
    (input : DetectionInput)
    (hh : cfg.HiveAPIKey = "") (hg : cfg.GPTZeroAPIKey = "") (ho : cfg.OpenAIAPIKey = "")
    (hu : input.URL = "")
    (hcat : resolvedCategory input = "text" ∨ resolvedCategory input = "image") :
    detect cfg env1 input = detect cfg env2 input := by
  unfold detect
  dsimp only
  rcases hcat with h | h <;> rw [h]
  · rw [if_pos (show (("text" : String) == "text") = true by decide),
      if_pos (show (("text" : String) == "text") = true by decide),
      detectText_det cfg env1 env2 _ hh hg ho (by simpa using hu)]
  · rw [if_neg (show ¬ ((("image" : String) == "text") = true) by decide),
      if_neg (show ¬ ((("image" : String) == "text") = true) by decide),
      if_pos (show (("image" : String) == "image") = true by decide),
      if_pos (show (("image" : String) == "image") = true by decide),
      detectImage_det cfg env1 env2 _ hh (by simpa using hu)]
theorem sentVar_low (a : TextAnalyzer) (codes : List Nat)
    (hs : (splitSentences codes).length < 3) : a.analyzeSentenceVariance codes = 1/2 := by
  unfold TextAnalyzer.analyzeSentenceVariance
  rw [if_pos hs]
  norm_num

theorem vocab_low (a : TextAnalyzer) (codes : List Nat)
    (hw : (tokenize codes).length < 10) : a.analyzeVocabularyRichness codes = 1/2 := by
  unfold TextAnalyzer.analyzeVocabularyRichness
  rw [if_pos hw]
  norm_num

theorem burst_low (a : TextAnalyzer) (codes : List Nat)
    (hw : (tokenize codes).length < 20) : a.analyzeBurstiness codes = 1/2 := by
  unfold TextAnalyzer.analyzeBurstiness
  rw [if_pos hw]
  norm_num

theorem punct_low (a : TextAnalyzer) (codes : List Nat)
    (hp : (codes.filter isPunctCode).length < 5) : a.analyzePunctuationVariety codes = 1/2 := by
  unfold TextAnalyzer.analyzePunctuationVariety
  rw [if_pos hp]
  norm_num

theorem wordLen_low (a : TextAnalyzer) (codes : List Nat)
    (hw : (tokenize codes).length < 10) : a.analyzeWordLengthVariance codes = 1/2 := by
  unfold TextAnalyzer.analyzeWordLengthVariance
  rw [if_pos hw]
  norm_num

theorem contr_low (a : TextAnalyzer) (codes : List Nat)
    (hw : (tokenize codes).length < 20) : a.analyzeContractions codes = 1/2 := by
  unfold TextAnalyzer.analyzeContractions
  rw [if_pos hw]
  norm_num

theorem rep_low (a : TextAnalyzer) (codes : List Nat)
    (hs : (splitSentences codes).length < 3) : a.analyzeRepetition codes = 1/2 := by
  unfold TextAnalyzer.analyzeRepetition
  rw [if_pos hs]
  norm_num

theorem phrases_none (a : TextAnalyzer) (codes : List Nat)
    (hph : (a.detectAIPhrases codes).2 = []) : (a.detectAIPhrases codes).1 = 0 := by
  unfold TextAnalyzer.detectAIPhrases at hph ⊢
  simp only at hph ⊢
  rcases eq_or_ne
      (aiPhrases.filter (fun p => listContains (codes.map codeLower) (strBytes p.1))).length 0 with
    h0 | hne
  · rw [if_pos h0]
  · rw [if_neg hne] at hph
    simp only at hph
    exact absurd (by rw [List.map_eq_nil_iff.mp hph]; rfl) hne

/-- Claim C8 (corrected): for every text with fewer than 3 words, fewer than
3 sentences, fewer than 5 punctuation characters and no AI-phrase match, every
signal takes its neutral fallback and the analyzer's final `AIScore` is exactly
2/5, hence within the band [3/10, 7/10].  The word-count hypothesis alone is
not sufficient (see the counterexample). -/
theorem C8_short_text_neutral (t : String)
    (hw : (tokenize (strBytes t)).length < 3)
    (hs : (splitSentences (strBytes t)).length < 3)
    (hp : ((strBytes t).filter isPunctCode).length < 5)
    (hph : (NewTextAnalyzer.detectAIPhrases (strBytes t)).2 = []) :
    (NewTextAnalyzer.analyze t).AIScore = 2/5 ∧
    (3/10 : ℚ) ≤ (NewTextAnalyzer.analyze t).AIScore ∧
    (NewTextAnalyzer.analyze t).AIScore ≤ 7/10 := by
  have hscore : (NewTextAnalyzer.analyze t).AIScore = 2/5 := by
    unfold TextAnalyzer.analyze
    simp only
    rw [sentVar_low _ _ hs, vocab_low _ _ (by omega), burst_low _ _ (by omega),
      punct_low _ _ hp, phrases_none _ _ hph, wordLen_low _ _ (by omega),
      contr_low _ _ (by omega), rep_low _ _ hs]
    unfold TextAnalyzer.calculateWeightedScore NewTextAnalyzer
    norm_num [DefaultWeights, clamp01, minQ, maxQ]
  exact ⟨hscore, by rw [hscore]; norm_num, by rw [hscore]; norm_num⟩

theorem byteAt_isSome_of_lt {d : List Nat} {i : Nat} (h : i < d.length) :
    ∃ b, byteAt d i = some b := by
  simp only [byteAt]
  exact ⟨d.get ⟨i, h⟩, List.get?_eq_get h⟩

theorem slice?_eq_some {d : List Nat} {a b : Nat} (hab : a ≤ b) (hb : b ≤ d.length) :
    slice? d a b = some (sliceD d a b) := by
  simp [slice?, sliceD, hab, hb]

theorem detectImageFormat_isSome (d : List Nat) : (detectImageFormat d).isSome := by
  unfold detectImageFormat
  by_cases h : d.length < 8
  · simp [h]
  · rw [if_neg h]
    push_neg at h
    obtain ⟨b0, h0⟩ := byteAt_isSome_of_lt (show 0 < d.length by omega)
    obtain ⟨b1, h1⟩ := byteAt_isSome_of_lt (show 1 < d.length by omega)
    obtain ⟨b2, h2⟩ := byteAt_isSome_of_lt (show 2 < d.length by omega)
    obtain ⟨b3, h3⟩ := byteAt_isSome_of_lt (show 3 < d.length by omega)
    rw [h0, h1, h2, h3]
    simp only [Bind.bind, Option.bind]
    (repeat' split) <;> try simp
    all_goals
      simp_all only [Bool.and_eq_true, decide_eq_true_eq]
      obtain ⟨b8, h8⟩ := byteAt_isSome_of_lt (show 8 < d.length by omega)
      obtain ⟨b9, h9⟩ := byteAt_isSome_of_lt (show 9 < d.length by omega)
      obtain ⟨b10, h10⟩ := byteAt_isSome_of_lt (show 10 < d.length by omega)
      obtain ⟨b11, h11⟩ := byteAt_isSome_of_lt (show 11 < d.length by omega)
      simp_all
      try (repeat' split) <;> simp

theorem detectAudioFormat_isSome (d : List Nat) : (detectAudioFormat d).isSome := by
  unfold detectAudioFormat
  by_cases hl : d.length < 12
  · simp [hl]
  · rw [if_neg hl]
    push_neg at hl
    obtain ⟨b0, h0⟩ := byteAt_isSome_of_lt (show 0 < d.length by omega)
    obtain ⟨b1, h1⟩ := byteAt_isSome_of_lt (show 1 < d.length by omega)
    obtain ⟨b2, h2⟩ := byteAt_isSome_of_lt (show 2 < d.length by omega)
    rw [h0, h1, h2, slice?_eq_some (show 0 ≤ 4 by omega) (show 4 ≤ d.length by omega),
      slice?_eq_some (show 8 ≤ 12 by omega) (show 12 ≤ d.length by omega),
      slice?_eq_some (show 4 ≤ 8 by omega) (show 8 ≤ d.length by omega)]
    simp only [Bind.bind, Option.bind]
    (repeat' split) <;> simp

theorem detectVideoFormat_isSome (d : List Nat) : (detectVideoFormat d).isSome := by
  unfold detectVideoFormat
  by_cases hl : d.length < 12
  · simp [hl]
  · rw [if_neg hl]
    push_neg at hl
    obtain ⟨b0, h0⟩ := byteAt_isSome_of_lt (show 0 < d.length by omega)
    obtain ⟨b1, h1⟩ := byteAt_isSome_of_lt (show 1 < d.length by omega)
    obtain ⟨b2, h2⟩ := byteAt_isSome_of_lt (show 2 < d.length by omega)
    obtain ⟨b3, h3⟩ := byteAt_isSome_of_lt (show 3 < d.length by omega)
    obtain ⟨b4, h4⟩ := byteAt_isSome_of_lt (show 4 < d.length by omega)
    obtain ⟨b5, h5⟩ := byteAt_isSome_of_lt (show 5 < d.length by omega)
    obtain ⟨b6, h6⟩ := byteAt_isSome_of_lt (show 6 < d.length by omega)
    obtain ⟨b7, h7⟩ := byteAt_isSome_of_lt (show 7 < d.length by omega)
    rw [h0, h1, h2, h3, h4, h5, h6, h7,
      slice?_eq_some (show 4 ≤ 8 by omega) (show 8 ≤ d.length by omega),
      slice?_eq_some (show 8 ≤ 12 by omega) (show 12 ≤ d.length by omega),
      slice?_eq_some (show 0 ≤ 4 by omega) (show 4 ≤ d.length by omega)]
    simp only [Bind.bind, Option.bind]
    (repeat' split) <;> try simp
    all_goals
      try simp_all only [decide_eq_true_eq]
      obtain ⟨s188, h188⟩ := byteAt_isSome_of_lt (show 188 < d.length by omega)
      obtain ⟨s376, h376⟩ := byteAt_isSome_of_lt (show 376 < d.length by omega)
      try simp_all
      try (repeat' split) <;> simp

theorem take_eq_len {d1 d2 : List Nat} {N : Nat} (h : d1.take N = d2.take N) :
    d1 = d2 ∨ (N ≤ d1.length ∧ N ≤ d2.length) := by
  have hlen := congrArg List.length h
  simp only [List.length_take] at hlen
  rcases le_or_lt N d1.length with h1 | h1
  · rcases le_or_lt N d2.length with h2 | h2
    · exact Or.inr ⟨h1, h2⟩
    · omega
  · have hd1 : d1.take N = d1 := List.take_of_length_le (by omega)
    have hd2 : d2.take N = d2 := List.take_of_length_le (by omega)
    exact Or.inl (by rw [← hd1, h, hd2])

theorem byteAt_take_eq {d1 d2 : List Nat} {N i : Nat} (h : d1.take N = d2.take N)
    (hi : i < N) : byteAt d1 i = byteAt d2 i := by
  simp only [byteAt]
  rw [← List.get?_take hi (l := d1), h, List.get?_take hi]

theorem sliceD_take_eq {d1 d2 : List Nat} {N a b : Nat} (h : d1.take N = d2.take N)
    (hb : b ≤ N) : sliceD d1 a b = sliceD d2 a b := by
  unfold sliceD
  have key : ∀ d : List Nat, (d.drop a).take (b - a) = ((d.take N).drop a).take (b - a) := by
    intro d
    rw [List.drop_take, List.take_take]
    congr 1
    omega
  rw [key d1, key d2, h]

theorem take_take_eq {d1 d2 : List Nat} {N k : Nat} (h : d1.take N = d2.take N)
    (hk : k ≤ N) : d1.take k = d2.take k := by
  have key : ∀ d : List Nat, d.take k = (d.take N).take k := by
    intro d
    rw [List.take_take]
    congr 1
    omega
  rw [key d1, key d2, h]

theorem slice?_take_eq {d1 d2 : List Nat} {N a b : Nat} (h : d1.take N = d2.take N)
    (hl1 : N ≤ d1.length) (hl2 : N ≤ d2.length) (hab : a ≤ b) (hb : b ≤ N) :
    slice? d1 a b = slice? d2 a b := by
  rw [slice?_eq_some hab (le_trans hb hl1), slice?_eq_some hab (le_trans hb hl2),
    sliceD_take_eq h hb]

theorem detectImageFormat_take_eq (d1 d2 : List Nat) (h : d1.take 12 = d2.take 12) :
    detectImageFormat d1 = detectImageFormat d2 := by
  rcases take_eq_len h with rfl | ⟨hl1, hl2⟩
  · rfl
  · unfold detectImageFormat
    rw [if_neg (show ¬(d1.length < 8) by omega), if_neg (show ¬(d2.length < 8) by omega),
      byteAt_take_eq h (show 0 < 12 by omega), byteAt_take_eq h (show 1 < 12 by omega),
      byteAt_take_eq h (show 2 < 12 by omega), byteAt_take_eq h (show 3 < 12 by omega),
      byteAt_take_eq h (show 8 < 12 by omega), byteAt_take_eq h (show 9 < 12 by omega),
      byteAt_take_eq h (show 10 < 12 by omega), byteAt_take_eq h (show 11 < 12 by omega),
      show (decide (12 ≤ d1.length)) = (decide (12 ≤ d2.length)) by simp [hl1, hl2]]

theorem detectAudioFormat_take_eq (d1 d2 : List Nat) (h : d1.take 12 = d2.take 12) :
    detectAudioFormat d1 = detectAudioFormat d2 := by
  rcases take_eq_len h with rfl | ⟨hl1, hl2⟩
  · rfl
  · unfold detectAudioFormat
    rw [if_neg (show ¬(d1.length < 12) by omega), if_neg (show ¬(d2.length < 12) by omega),
      byteAt_take_eq h (show 0 < 12 by omega), byteAt_take_eq h (show 1 < 12 by omega),
      byteAt_take_eq h (show 2 < 12 by omega),
      slice?_take_eq h hl1 hl2 (show 0 ≤ 4 by omega) (show 4 ≤ 12 by omega),
      slice?_take_eq h hl1 hl2 (show 8 ≤ 12 by omega) (show 12 ≤ 12 by omega),
      slice?_take_eq h hl1 hl2 (show 4 ≤ 8 by omega) (show 8 ≤ 12 by omega)]

theorem detectVideoFormat_take_eq (d1 d2 : List Nat) (h : d1.take 377 = d2.take 377) :
    detectVideoFormat d1 = detectVideoFormat d2 := by
  rcases take_eq_len h with rfl | ⟨hl1, hl2⟩
  · rfl
  · unfold detectVideoFormat
    have h100 : d1.take (min 100 d1.length) = d2.take (min 100 d2.length) := by
      rw [min_eq_left (by omega), min_eq_left (by omega)]
      exact take_take_eq h (by omega)
    rw [if_neg (show ¬(d1.length < 12) by omega), if_neg (show ¬(d2.length < 12) by omega),
      byteAt_take_eq h (show 0 < 377 by omega), byteAt_take_eq h (show 1 < 377 by omega),
      byteAt_take_eq h (show 2 < 377 by omega), byteAt_take_eq h (show 3 < 377 by omega),
      byteAt_take_eq h (show 4 < 377 by omega), byteAt_take_eq h (show 5 < 377 by omega),
      byteAt_take_eq h (show 6 < 377 by omega), byteAt_take_eq h (show 7 < 377 by omega),
      byteAt_take_eq h (show 188 < 377 by omega), byteAt_take_eq h (show 376 < 377 by omega),
      slice?_take_eq h hl1 hl2 (show 4 ≤ 8 by omega) (show 8 ≤ 377 by omega),
      slice?_take_eq h hl1 hl2 (show 8 ≤ 12 by omega) (show 12 ≤ 377 by omega),
      slice?_take_eq h hl1 hl2 (show 0 ≤ 4 by omega) (show 4 ≤ 377 by omega),
      h100,
      show (decide (8 ≤ d1.length)) = (decide (8 ≤ d2.length)) by simp; omega,
      show (decide (4 ≤ d1.length)) = (decide (4 ≤ d2.length)) by simp; omega]
    simp only [show (12 ≤ d1.length) ↔ (12 ≤ d2.length) by constructor <;> intro <;> omega,
      show (376 < d1.length) ↔ (376 < d2.length) by constructor <;> intro <;> omega]

theorem moovProcess_isSome (data : List Nat) (ord : List (String × String))
    (offset size : Nat) (ty : List Nat)
    (acc : VideoMetadata × VideoStats) (h8 : 8 ≤ size) (hle : offset + size ≤ data.length) :
    (moovProcess data ord offset size ty acc).isSome := by
  unfold moovProcess
  split
  · rw [slice?_eq_some (by omega) (by omega)]
    simp only [Bind.bind, Option.bind]
    simp
  · split
    · split
      · rw [slice?_eq_some (by omega) (by omega : min (offset + size) (offset + 1000) ≤ data.length)]
        simp only [Bind.bind, Option.bind]
        simp
      · simp
    · simp

theorem moovWalk_isSome (data : List Nat) (ord : List (String × String)) :
    ∀ (fuel offset : Nat) (acc : VideoMetadata × VideoStats),
      data.length - offset < 8 * fuel → (moovWalk data ord fuel offset acc).isSome := by
  intro fuel
  induction fuel with
  | zero => intro offset acc hb; omega
  | succ f ih =>
    intro offset acc hb
    unfold moovWalk
    split
    · rename_i hoff
      rw [if_neg (show ¬(offset + 8 > data.length) by omega)]
      rw [slice?_eq_some (by omega) (by omega), slice?_eq_some (by omega) (by omega)]
      simp only [Bind.bind, Option.bind]
      split
      · simp
      · rename_i hsz
        have h8 : 8 ≤ u32be (sliceD data offset (offset + 4)) ∧
            offset + u32be (sliceD data offset (offset + 4)) ≤ data.length := by
          simpa using hsz
        have hp := moovProcess_isSome data ord offset (u32be (sliceD data offset (offset + 4)))
          (sliceD data (offset + 4) (offset + 8)) acc h8.1 h8.2
        obtain ⟨acc', hacc⟩ := Option.isSome_iff_exists.mp hp
        rw [hacc]
        simp only [Bind.bind, Option.bind]
        exact ih (offset + u32be (sliceD data offset (offset + 4))) acc' (by omega)
    · simp

theorem moovWalk_ext (data : List Nat) (ord : List (String × String)) :
    ∀ (fuel1 fuel2 offset : Nat) (acc : VideoMetadata × VideoStats),
      data.length - offset < 8 * fuel1 → data.length - offset < 8 * fuel2 →
      moovWalk data ord fuel1 offset acc = moovWalk data ord fuel2 offset acc := by
  intro fuel1
  induction fuel1 with
  | zero => intro fuel2 offset acc hb1 hb2; omega
  | succ f ih =>
    intro fuel2 offset acc hb1 hb2
    obtain ⟨g, rfl⟩ : ∃ g, fuel2 = g + 1 := ⟨fuel2 - 1, by omega⟩
    show moovWalk data ord (f + 1) offset acc = moovWalk data ord (g + 1) offset acc
    unfold moovWalk
    by_cases hoff : offset < data.length - 8
    · rw [if_pos hoff, if_pos hoff,
        if_neg (show ¬(offset + 8 > data.length) by omega),
        if_neg (show ¬(offset + 8 > data.length) by omega),
        slice?_eq_some (by omega) (by omega), slice?_eq_some (by omega) (by omega)]
      simp only [Bind.bind, Option.bind]
      by_cases hsz : (decide (u32be (sliceD data offset (offset + 4)) < 8) ||
          decide (offset + u32be (sliceD data offset (offset + 4)) > data.length)) = true
      · rw [if_pos hsz, if_pos hsz]
      · rw [if_neg hsz, if_neg hsz]
        have h8 : 8 ≤ u32be (sliceD data offset (offset + 4)) ∧
            offset + u32be (sliceD data offset (offset + 4)) ≤ data.length := by
          simpa using hsz
        cases hacc : moovProcess data ord offset (u32be (sliceD data offset (offset + 4)))
            (sliceD data (offset + 4) (offset + 8)) acc with
        | none => rfl
        | some acc' =>
          simp only [Bind.bind, Option.bind]
          exact ih g (offset + u32be (sliceD data offset (offset + 4))) acc' (by omega) (by omega)
    · rw [if_neg hoff, if_neg hoff]

theorem mp4Process_isSome (data : List Nat) (ord : List (String × String))
    (offset size : Nat) (ty : List Nat)
    (acc : VideoMetadata × VideoStats) (h8 : 8 ≤ size) (hle : offset + size ≤ data.length) :
    (mp4Process data ord offset size ty acc).isSome := by
  unfold mp4Process
  split
  · rw [slice?_eq_some (by omega) (by omega)]
    simp only [Bind.bind, Option.bind]
    unfold parseMovieAtom
    exact moovWalk_isSome _ _ _ 8 _ (by omega)
  · split
    · simp
    · split
      · split
        · rw [slice?_eq_some (by omega)
            (by omega : min (offset + size) (offset + 100) ≤ data.length)]
          simp only [Bind.bind, Option.bind]
          split <;> simp
        · simp
      · split
        · split
          · rw [slice?_eq_some (by omega)
              (by omega : min (offset + size) (offset + 500) ≤ data.length)]
            simp only [Bind.bind, Option.bind]
            simp
          · simp
        · simp

theorem mp4DeclaredSize_eq (data : List Nat) (offset : Nat) :
    mp4DeclaredSize data offset = u32be (sliceD data offset (offset + 4)) := rfl

theorem mp4EffSize_bounds (data : List Nat) (offset : Nat) (hoff : offset < data.length - 8)
    (h8 : 8 ≤ mp4DeclaredSize data offset) :
    8 ≤ mp4EffSize data offset ∧ offset + mp4EffSize data offset ≤ data.length := by
  unfold mp4EffSize
  dsimp only
  split <;> constructor <;> omega

theorem mp4EffSize_clamp (data : List Nat) (offset : Nat)
    (hover : data.length < offset + mp4DeclaredSize data offset) :
    mp4EffSize data offset = data.length - offset := by
  unfold mp4EffSize
  dsimp only
  rw [if_pos (by omega)]

theorem mp4Walk_isSome (data : List Nat) (ord : List (String × String)) :
    ∀ (fuel offset : Nat) (acc : VideoMetadata × VideoStats),
      data.length - offset < 8 * fuel → (mp4Walk data ord fuel offset acc).isSome := by
  intro fuel
  induction fuel with
  | zero => intro offset acc hb; omega
  | succ f ih =>
    intro offset acc hb
    unfold mp4Walk
    split
    · rename_i hoff
      rw [if_neg (show ¬(offset + 8 > data.length) by omega)]
      rw [slice?_eq_some (by omega) (by omega), slice?_eq_some (by omega) (by omega)]
      simp only [Bind.bind, Option.bind]
      split
      · simp
      · rename_i hsz
        have h8 : 8 ≤ mp4DeclaredSize data offset := by
          rw [mp4DeclaredSize_eq]
          simpa using hsz
        have hbd := mp4EffSize_bounds data offset hoff h8
        have hp := mp4Process_isSome data ord offset (mp4EffSize data offset)
          (sliceD data (offset + 4) (offset + 8)) acc hbd.1 hbd.2
        obtain ⟨acc', hacc⟩ := Option.isSome_iff_exists.mp hp
        rw [hacc]
        simp only [Bind.bind, Option.bind]
        exact ih (offset + mp4EffSize data offset) acc' (by omega)
    · simp

theorem mp4Walk_ext (data : List Nat) (ord : List (String × String)) :
    ∀ (fuel1 fuel2 offset : Nat) (acc : VideoMetadata × VideoStats),
      data.length - offset < 8 * fuel1 → data.length - offset < 8 * fuel2 →
      mp4Walk data ord fuel1 offset acc = mp4Walk data ord fuel2 offset acc := by
  intro fuel1
  induction fuel1 with
  | zero => intro fuel2 offset acc hb1 hb2; omega
  | succ f ih =>
    intro fuel2 offset acc hb1 hb2
    obtain ⟨g, rfl⟩ : ∃ g, fuel2 = g + 1 := ⟨fuel2 - 1, by omega⟩
    show mp4Walk data ord (f + 1) offset acc = mp4Walk data ord (g + 1) offset acc
    unfold mp4Walk
    by_cases hoff : offset < data.length - 8
    · rw [if_pos hoff, if_pos hoff,
        if_neg (show ¬(offset + 8 > data.length) by omega),
        if_neg (show ¬(offset + 8 > data.length) by omega),
        slice?_eq_some (by omega) (by omega), slice?_eq_some (by omega) (by omega)]
      simp only [Bind.bind, Option.bind]
      by_cases hsz : (u32be (sliceD data offset (offset + 4)) < 8)
      · rw [if_pos hsz, if_pos hsz]
      · rw [if_neg hsz, if_neg hsz]
        have h8 : 8 ≤ mp4DeclaredSize data offset := by
          rw [mp4DeclaredSize_eq]
          omega
        have hbd := mp4EffSize_bounds data offset hoff h8
        cases hacc : mp4Process data ord offset (mp4EffSize data offset)
            (sliceD data (offset + 4) (offset + 8)) acc with
        | none => rfl
        | some acc' =>
          simp only [Bind.bind, Option.bind]
          exact ih g (offset + mp4EffSize data offset) acc' (by omega) (by omega)
    · rw [if_neg hoff, if_neg hoff]

theorem sniffers_short (d : List Nat) (h : d.length ≤ 3) :
    detectImageFormat d = some "unknown" ∧ detectAudioFormat d = some "unknown" ∧
    detectVideoFormat d = some "unknown" := by
  unfold detectImageFormat detectAudioFormat detectVideoFormat
  rw [if_pos (show d.length < 8 by omega), if_pos (show d.length < 12 by omega),
    if_pos (show d.length < 12 by omega)]
  exact ⟨rfl, rfl, rfl⟩

/-! ## Claim theorems -/

/-- Claim C1: for every signal set, the per-modality aggregate score of the
default analyzer equals `clamp01` of the weighted mean (sum of signal times
weight, divided by the total weight of the default table), and therefore lies
in [0, 1] for all inputs, including signal values outside [0, 1]; stated for
all four modalities. -/
theorem C1_weighted_score_is_clamped_mean (st : TextSignals) (si : ImageSignals)
    (sa : AudioSignals) (sv : VideoSignals) :
    (NewTextAnalyzer.calculateWeightedScore st =
      clamp01 ((st.SentenceVariance * DefaultWeights.SentenceVariance +
        st.VocabularyRichness * DefaultWeights.VocabularyRichness +
        st.Burstiness * DefaultWeights.Burstiness +
        st.PunctuationVariety * DefaultWeights.PunctuationVariety +
        st.AIPhraseScore * DefaultWeights.AIPhraseDetection +
        st.WordLengthVariance * DefaultWeights.WordLengthVariance +
        st.ContractionsUsage * DefaultWeights.ContractionsUsage +
        st.RepetitionScore * DefaultWeights.RepetitionPenalty) /
        (DefaultWeights.SentenceVariance + DefaultWeights.VocabularyRichness +
         DefaultWeights.Burstiness + DefaultWeights.PunctuationVariety +
         DefaultWeights.AIPhraseDetection + DefaultWeights.WordLengthVariance +
         DefaultWeights.ContractionsUsage + DefaultWeights.RepetitionPenalty)) ∧
     0 ≤ NewTextAnalyzer.calculateWeightedScore st ∧
     NewTextAnalyzer.calculateWeightedScore st ≤ 1) ∧
    (NewImageAnalyzer.calculateWeightedScore si =
      clamp01 ((si.MetadataScore * DefaultImageWeights.MetadataScore +
        si.ColorDistribution * DefaultImageWeights.ColorDistribution +
        si.EdgeConsistency * DefaultImageWeights.EdgeConsistency +
        si.NoisePattern * DefaultImageWeights.NoisePattern +
        si.CompressionAnalysis * DefaultImageWeights.CompressionAnalysis +
        si.SymmetryScore * DefaultImageWeights.SymmetryDetection) /
        (DefaultImageWeights.MetadataScore + DefaultImageWeights.ColorDistribution +
         DefaultImageWeights.EdgeConsistency + DefaultImageWeights.NoisePattern +
         DefaultImageWeights.CompressionAnalysis + DefaultImageWeights.SymmetryDetection)) ∧
     0 ≤ NewImageAnalyzer.calculateWeightedScore si ∧
     NewImageAnalyzer.calculateWeightedScore si ≤ 1) ∧
    (0 ≤ NewAudioAnalyzer.calculateWeightedScore sa ∧
     NewAudioAnalyzer.calculateWeightedScore sa ≤ 1) ∧
    (0 ≤ NewVideoAnalyzer.calculateWeightedScore sv ∧
     NewVideoAnalyzer.calculateWeightedScore sv ≤ 1) := by
  refine ⟨⟨?_, clamp01_nonneg _, clamp01_le_one _⟩,
    ⟨?_, clamp01_nonneg _, clamp01_le_one _⟩,
    ⟨clamp01_nonneg _, clamp01_le_one _⟩, ⟨clamp01_nonneg _, clamp01_le_one _⟩⟩
  · unfold TextAnalyzer.calculateWeightedScore NewTextAnalyzer
    dsimp only
    rw [if_pos (by norm_num [DefaultWeights])]
  · unfold ImageAnalyzer.calculateWeightedScore NewImageAnalyzer
    dsimp only
    rw [if_pos (by norm_num [DefaultImageWeights])]

/-- Claim C2 (corrected): with no external detector API keys, no URL on
the input, and a content category resolving to text or image, `detect` is
independent of its environment, so two runs on identical input return
identical results, in particular identical `AIScore` and `ContentHash`.
With a URL present the content is refetched on each run, and on the audio
and video paths the encoder lookup ranges over a Go map in randomized
order; either breaks two-run determinism (see the counterexample). -/
theorem C2_detect_deterministic (cfg : DetectorConfig) (env1 env2 : NetEnv)
    (input : DetectionInput)
    (hh : cfg.HiveAPIKey = "") (hg : cfg.GPTZeroAPIKey = "") (ho : cfg.OpenAIAPIKey = "")
    (hu : input.URL = "")
    (hcat : resolvedCategory input = "text" ∨ resolvedCategory input = "image") :
    detect cfg env1 input = detect cfg env2 input ∧
    detectObservation (detect cfg env1 input) = detectObservation (detect cfg env2 input) := by
  have h := detect_env_independent cfg env1 env2 input hh hg ho hu hcat
  exact ⟨h, by rw [h]⟩

theorem C2_detect_deterministic_witness :
    (cfgNoKeys.HiveAPIKey = "" ∧ cfgNoKeys.GPTZeroAPIKey = "" ∧
     cfgNoKeys.OpenAIAPIKey = "" ∧ inputHi.URL = "" ∧
     resolvedCategory inputHi = "text") ∧
    detect cfgNoKeys envFetchA inputHi = detect cfgNoKeys envFetchB inputHi :=
  ⟨⟨rfl, rfl, rfl, rfl, by decide⟩,
   (C2_detect_deterministic cfgNoKeys envFetchA envFetchB inputHi rfl rfl rfl rfl
     (Or.inl (by decide))).1⟩

/-- Counterexample to the literal Claim C2, in both failure modes: with no
API keys configured, (a) a URL input is refetched on each call, so two
environments whose fetch returns different content give different
`AIScore`s; and (b) a video input whose bytes match both the "runway" and
the "ffmpeg" encoder keys gets a different `EncoderName`, hence a different
`AIScore`, under two iteration orders of the same encoder map
(`ordVideoAlt` is a permutation of `videoEncoderTable`), even with
`URL = ""`. -/
theorem C2_nondeterminism_counterexample :
    (cfgNoKeys.HiveAPIKey = "" ∧ cfgNoKeys.GPTZeroAPIKey = "" ∧
     cfgNoKeys.OpenAIAPIKey = "" ∧
     detectAIScore (detect cfgNoKeys envFetchA inputUrlText) ≠
       detectAIScore (detect cfgNoKeys envFetchB inputUrlText)) ∧
    (inputVidEnc.URL = "" ∧ List.Perm ordVideoAlt videoEncoderTable ∧
     detectAIScore (detect cfgNoKeys envAllFail inputVidEnc) ≠
       detectAIScore (detect cfgNoKeys envVidOrd2 inputVidEnc)) := by
  refine ⟨⟨rfl, rfl, rfl, by with_unfolding_all decide⟩, rfl, ?_,
    by with_unfolding_all decide⟩
  show List.Perm (videoEncoderTable.drop 8 ++ videoEncoderTable.take 8) videoEncoderTable
  conv_rhs => rw [← List.take_append_drop 8 videoEncoderTable]
  exact List.perm_append_comm

theorem C3_media_bytes_no_error_witness :
    (inputRawImage.Data ≠ [] ∧
     (inputRawImage.ContentType = "image" ∨ inputRawImage.ContentType = "audio" ∨
      inputRawImage.ContentType = "video")) ∧
    exceptIsOk (detect cfgNoKeys envAllFail inputRawImage) = true :=
  ⟨⟨by decide, Or.inl rfl⟩,
   C3_media_bytes_no_error cfgNoKeys envAllFail inputRawImage (by decide) (Or.inl rfl)⟩

/-- Counterexample to the literal Claim C3: a URL-only text input in an
environment whose fetch fails makes `detect` return a third kind of error,
a fetch failure, which is neither of the two errors the claim enumerates. -/
theorem C3_fetch_failure_counterexample :
    detect cfgNoKeys envAllFail inputUrlText =
      .error (.detectionFailed (.fetchFailed "failed to fetch text from URL")) ∧
    inputUrlText.URL ≠ "" ∧ inputUrlText.ContentType = "text" :=
  ⟨rfl, by decide, rfl⟩

/-- Claim C4: for every byte buffer the MP4 atom walk terminates within any
sufficient fuel bound and its result is fuel-independent (so the Go loop,
which has no fuel, terminates with this same result); `analyzeMP4` and
`parseMovieAtom` never go out of bounds (`isSome`); an atom whose declared
big-endian size overruns the buffer is clamped to the remaining length, the
effective size is always at least 8, and every step stays within bounds. -/
theorem C4_mp4_walk_safe (data : List Nat) (ord : List (String × String)) (fuel : Nat)
    (acc : VideoMetadata × VideoStats) (meta : VideoMetadata) (stats : VideoStats)
    (hfuel : data.length < 8 * fuel) :
    (mp4Walk data ord fuel 0 acc).isSome = true ∧
    mp4Walk data ord fuel 0 acc = mp4Walk data ord (data.length + 1) 0 acc ∧
    (∀ a : VideoAnalyzer, (a.analyzeMP4 ord data).isSome = true) ∧
    (parseMovieAtom data ord meta stats).isSome = true ∧
    (∀ offset, offset < data.length - 8 → 8 ≤ mp4DeclaredSize data offset →
      8 ≤ mp4EffSize data offset ∧ offset + mp4EffSize data offset ≤ data.length ∧
      (data.length < offset + mp4DeclaredSize data offset →
        mp4EffSize data offset = data.length - offset)) := by
  refine ⟨?_, ?_, ?_, ?_, ?_⟩
  · exact mp4Walk_isSome data ord fuel 0 acc (by omega)
  · exact mp4Walk_ext data ord fuel (data.length + 1) 0 acc (by omega) (by omega)
  · intro a
    unfold VideoAnalyzer.analyzeMP4
    exact mp4Walk_isSome data ord (data.length + 1) 0 _ (by omega)
  · unfold parseMovieAtom
    exact moovWalk_isSome data ord (data.length + 1) 8 (meta, stats) (by omega)
  · intro offset h1 h2
    exact ⟨(mp4EffSize_bounds data offset h1 h2).1, (mp4EffSize_bounds data offset h1 h2).2,
      fun hover => mp4EffSize_clamp data offset hover⟩

theorem C4_mp4_walk_safe_witness :
    truncatedAtomBytes.length < 8 * 3 ∧
    (mp4Walk truncatedAtomBytes videoEncoderTable 3 0
      ({ Format := "mp4", HasVideo := true }, { FileSize := 16 })).isSome = true ∧
    mp4EffSize truncatedAtomBytes 0 = 16 := by
  have h := C4_mp4_walk_safe truncatedAtomBytes videoEncoderTable 3
    ({ Format := "mp4", HasVideo := true }, { FileSize := 16 }) {} {} (by decide)
  refine ⟨by decide, h.1, ?_⟩
  have h5 := h.2.2.2.2 0 (by decide) (by decide)
  rw [h5.2.2 (by decide)]
  decide

/-- Claim C5: every format sniffer is total and pure in the byte prefix: it
always returns a format (`isSome`: no out-of-bounds access), returns
"unknown" on buffers of at most 3 bytes, and equal prefixes (12 bytes for
image and audio, 377 bytes for video, which scans sync bytes up to offset
376) give equal results. -/
theorem C5_sniffers_total (d d1 d2 : List Nat)
    (h12 : d1.take 12 = d2.take 12) (h377 : d1.take 377 = d2.take 377) :
    (detectImageFormat d).isSome = true ∧
    (detectAudioFormat d).isSome = true ∧
    (detectVideoFormat d).isSome = true ∧
    (d.length ≤ 3 → detectImageFormat d = some "unknown" ∧
      detectAudioFormat d = some "unknown" ∧ detectVideoFormat d = some "unknown") ∧
    detectImageFormat d1 = detectImageFormat d2 ∧
    detectAudioFormat d1 = detectAudioFormat d2 ∧
    detectVideoFormat d1 = detectVideoFormat d2 :=
  ⟨detectImageFormat_isSome d, detectAudioFormat_isSome d, detectVideoFormat_isSome d,
   fun h => sniffers_short d h,
   detectImageFormat_take_eq d1 d2 h12, detectAudioFormat_take_eq d1 d2 h12,
   detectVideoFormat_take_eq d1 d2 h377⟩

theorem C5_sniffers_total_witness :
    (prefixBytes1.take 12 = prefixBytes2.take 12 ∧
     prefixBytes1.take 377 = prefixBytes2.take 377 ∧ threeBytes.length ≤ 3) ∧
    detectVideoFormat prefixBytes1 = detectVideoFormat prefixBytes2 ∧
    detectImageFormat threeBytes = some "unknown" :=
  have h := C5_sniffers_total threeBytes prefixBytes1 prefixBytes2 (by decide) (by decide)
  ⟨⟨by decide, by decide, by decide⟩, h.2.2.2.2.2.2, (h.2.2.2.1 (by decide)).1⟩

/-- Claim C6 (code bug): for a 12-byte buffer with FourCC "ftyp" at bytes 4-7
and brand "qt  " at bytes 8-11, the video sniffer returns "mp4", not the
"mov" that the claim, the spec and the repository's own test expect: the
first check in `detectVideoFormat` returns "mp4" for every ftyp buffer, so
the brand lookup that distinguishes "qt  " is unreachable dead code.  Brand
"isom" does yield "mp4" as claimed. -/
theorem C6_qt_brand_code_bug :
    qtBrandBytes.length = 12 ∧
    slice? qtBrandBytes 4 8 = some (strBytes "ftyp") ∧
    slice? qtBrandBytes 8 12 = some (strBytes "qt  ") ∧
    detectVideoFormat qtBrandBytes = some "mp4" ∧
    detectVideoFormat qtBrandBytes ≠ some "mov" ∧
    detectVideoFormat isomBrandBytes = some "mp4" :=
  ⟨by decide, by decide, by decide, by decide, by decide, by decide⟩

/-- Claim C7: for every configuration, environment and input, each of the four
modality detectors and the orchestrating `detect` return, on success, a result
with `Human = (AIScore < 1/2)` and `Confidence = |AIScore - 1/2| * 2`. -/
theorem C7_verdict_consistent (cfg : DetectorConfig) (env : NetEnv)
    (input : DetectionInput) :
    verdictConsistent (detectText cfg env input) ∧
    verdictConsistent (detectImage cfg env input) ∧
    verdictConsistent (detectAudio cfg env input) ∧
    verdictConsistent (detectVideo cfg env input) ∧
    verdictConsistent (detect cfg env input) :=
  ⟨detectText_verdict cfg env input, detectImage_verdict cfg env input,
   detectAudio_verdict cfg env input, detectVideo_verdict cfg env input,
   detect_verdict cfg env input⟩

theorem C8_short_text_neutral_witness :
    ((tokenize (strBytes "hi")).length < 3 ∧
     (splitSentences (strBytes "hi")).length < 3 ∧
     ((strBytes "hi").filter isPunctCode).length < 5 ∧
     (NewTextAnalyzer.detectAIPhrases (strBytes "hi")).2 = []) ∧
    (3/10 : ℚ) ≤ (NewTextAnalyzer.analyze "hi").AIScore ∧
    (NewTextAnalyzer.analyze "hi").AIScore ≤ 7/10 := by
  have h := C8_short_text_neutral "hi" (by decide) (by decide) (by decide)
    (by with_unfolding_all decide)
  exact ⟨⟨by decide, by decide, by decide, by with_unfolding_all decide⟩, h.2.1, h.2.2⟩

/-- Counterexample to the literal Claim C8: the text "a! -:. ;()" tokenizes to
fewer than 3 words, yet its `AIScore` is 9/40 < 3/10: with 5 punctuation
characters the punctuation-variety signal leaves its neutral fallback, pulling
the weighted score below the claimed band. -/
theorem C8_neutral_band_counterexample :
    (NewTextAnalyzer.analyze punctText).AIScore = 9/40 ∧
    (tokenize (strBytes punctText)).length < 3 ∧
    ¬((3/10 : ℚ) ≤ (9/40 : ℚ)) :=
  ⟨by with_unfolding_all decide, by decide, by norm_num⟩

/-- Claim C9: for each of the four modalities, the default weight table sums
to exactly 1, hence within the claimed 1 plus or minus 1/100. -/
theorem C9_weight_sums_unit :
    (DefaultWeights.SentenceVariance + DefaultWeights.VocabularyRichness +
     DefaultWeights.Burstiness + DefaultWeights.PunctuationVariety +
     DefaultWeights.AIPhraseDetection + DefaultWeights.WordLengthVariance +
     DefaultWeights.ContractionsUsage + DefaultWeights.RepetitionPenalty = 1 ∧
     absQ (DefaultWeights.SentenceVariance + DefaultWeights.VocabularyRichness +
       DefaultWeights.Burstiness + DefaultWeights.PunctuationVariety +
       DefaultWeights.AIPhraseDetection + DefaultWeights.WordLengthVariance +
       DefaultWeights.ContractionsUsage + DefaultWeights.RepetitionPenalty - 1) ≤ 1/100) ∧
    (DefaultImageWeights.MetadataScore + DefaultImageWeights.ColorDistribution +
     DefaultImageWeights.EdgeConsistency + DefaultImageWeights.NoisePattern +
     DefaultImageWeights.CompressionAnalysis + DefaultImageWeights.SymmetryDetection = 1 ∧
     absQ (DefaultImageWeights.MetadataScore + DefaultImageWeights.ColorDistribution +
       DefaultImageWeights.EdgeConsistency + DefaultImageWeights.NoisePattern +
       DefaultImageWeights.CompressionAnalysis +
       DefaultImageWeights.SymmetryDetection - 1) ≤ 1/100) ∧
    (DefaultAudioWeights.MetadataScore + DefaultAudioWeights.FormatAnalysis +
     DefaultAudioWeights.PatternAnalysis + DefaultAudioWeights.QualityIndicators +
     DefaultAudioWeights.AISignatures + DefaultAudioWeights.NoiseProfile = 1 ∧
     absQ (DefaultAudioWeights.MetadataScore + DefaultAudioWeights.FormatAnalysis +
       DefaultAudioWeights.PatternAnalysis + DefaultAudioWeights.QualityIndicators +
       DefaultAudioWeights.AISignatures + DefaultAudioWeights.NoiseProfile - 1) ≤ 1/100) ∧
    (DefaultVideoWeights.MetadataScore + DefaultVideoWeights.ContainerAnalysis +
     DefaultVideoWeights.AudioPresence + DefaultVideoWeights.TemporalPattern +
     DefaultVideoWeights.EncodingSignature + DefaultVideoWeights.BitrateConsistency = 1 ∧
     absQ (DefaultVideoWeights.MetadataScore + DefaultVideoWeights.ContainerAnalysis +
       DefaultVideoWeights.AudioPresence + DefaultVideoWeights.TemporalPattern +
       DefaultVideoWeights.EncodingSignature +
       DefaultVideoWeights.BitrateConsistency - 1) ≤ 1/100) := by
  with_unfolding_all decide

/-- Claim C10: for every input with non-empty `Text`, the content hash is the
hex SHA-256 of `Text` alone, so two inputs sharing the same non-empty `Text`
hash identically whatever their `Data` and `URL` fields: those are only
consulted when the preceding fields are empty. -/
theorem C10_hash_text_precedence (i1 i2 : DetectionInput)
    (h1 : i1.Text ≠ "") (h2 : i2.Text = i1.Text) :
    hashContent i1 = sha256Hex (strBytes i1.Text) ∧ hashContent i1 = hashContent i2 := by
  have e1 : hashContent i1 = sha256Hex (strBytes i1.Text) := by
    unfold hashContent
    rw [if_pos h1]
  have e2 : hashContent i2 = sha256Hex (strBytes i2.Text) := by
    unfold hashContent
    rw [if_pos (show i2.Text ≠ "" by rw [h2]; exact h1)]
  exact ⟨e1, by rw [e1, e2, h2]⟩

theorem C10_hash_text_precedence_witness :
    (inputHashA.Text ≠ "" ∧ inputHashB.Text = inputHashA.Text) ∧
    hashContent inputHashA = sha256Hex (strBytes inputHashA.Text) ∧
    hashContent inputHashA = hashContent inputHashB := by
  have h := C10_hash_text_precedence inputHashA inputHashB (by decide) rfl
  exact ⟨⟨by decide, rfl⟩, h.1, h.2⟩
